import Mathlib

/-!
Cart-to-transaction lifecycle of `microService`.

A shallow embedding of `internal/microServerMainFiles/cart_handlers.go` and
`models.go`.  The Go code keeps all its state in two MongoDB collections,
`carts` and `transactions`; here a collection is the list of its documents in
natural order and every function takes the store as an argument and returns the
store it leaves behind.

What the outside world decides for one call (whether the driver reports an
error, the clock, the generated `_id`, the PDF renderer, the mail dispatcher) is
collected in `Env`.  A driver call that reports an error leaves the collection
as it was.

`float64` is embedded as IEEE-754 binary64 with round-to-nearest-even, every
operation rounded on its own (no fused multiply-add).
-/

namespace MicroService

/-! ## binary64 -/

/-- IEEE-754 binary64 value. The value of `fin neg m e` is `(-1)^neg * m * 2^e`, with
`m < 2^53`, `-1074 ≤ e ≤ 971`, and `2^52 ≤ m` unless `e = -1074`. -/
inductive F64 where
  | nan
  | inf (neg : Bool)
  | fin (neg : Bool) (m : Nat) (e : Int)
deriving DecidableEq, Repr

namespace F64

/-- Number of binary digits of `n`, by halving at most `fuel` times. -/
def bitLenFuel : Nat → Nat → Nat
  | 0, _ => 0
  | fuel + 1, n => if n = 0 then 0 else bitLenFuel fuel (n / 2) + 1

/-- Number of binary digits of `n`. -/
def bitLen (n : Nat) : Nat := bitLenFuel n n

/-- Round `(-1)^neg * N * 2^E` to the nearest binary64, ties to even. -/
def round (neg : Bool) (N : Nat) (E : Int) : F64 :=
  let t0 : Int := E + (bitLen N : Nat) - 53
  let t : Int := if t0 < -1074 then -1074 else t0
  let N1 := N * 2 ^ (E - t).toNat
  let sh := (t - E).toNat
  let q := N1 / 2 ^ sh
  let r := N1 % 2 ^ sh
  let m := if 2 * r > 2 ^ sh ∨ (2 * r = 2 ^ sh ∧ q % 2 = 1) then q + 1 else q
  let t := if m = 2 ^ 53 then t + 1 else t
  let m := if m = 2 ^ 53 then 2 ^ 52 else m
  if m = 0 then fin neg 0 (-1074) else
  if t > 971 then inf neg else fin neg m t

/-- Go conversion `float64(i)` of an integer. -/
def ofInt (i : Int) : F64 := round (decide (i < 0)) i.natAbs 0

/-- Go `x + y` on `float64`. -/
def add : F64 → F64 → F64
  | nan, _ => nan
  | _, nan => nan
  | inf a, inf b => if a = b then inf a else nan
  | inf a, fin _ _ _ => inf a
  | fin _ _ _, inf b => inf b
  | fin s1 m1 e1, fin s2 m2 e2 =>
    if m1 = 0 ∧ m2 = 0 then fin (s1 && s2) 0 (-1074)
    else if m1 = 0 then fin s2 m2 e2
    else if m2 = 0 then fin s1 m1 e1
    else
      let e := if e1 ≤ e2 then e1 else e2
      let a := m1 * 2 ^ (e1 - e).toNat
      let b := m2 * 2 ^ (e2 - e).toNat
      if s1 = s2 then round s1 (a + b) e
      else if a = b then fin false 0 (-1074)
      else if a > b then round s1 (a - b) e
      else round s2 (b - a) e

/-- Go `x * y` on `float64`. -/
def mul : F64 → F64 → F64
  | nan, _ => nan
  | _, nan => nan
  | inf a, inf b => inf (xor a b)
  | inf a, fin b m _ => if m = 0 then nan else inf (xor a b)
  | fin a m _, inf b => if m = 0 then nan else inf (xor a b)
  | fin s1 m1 e1, fin s2 m2 e2 => round (xor s1 s2) (m1 * m2) (e1 + e2)

/-- The zero value of a Go `float64` variable, `+0`. -/
def zero : F64 := fin false 0 (-1074)

/-- The binary64 nearest to `n / 2^k` for a natural `n`; exact when `n < 2^53`. -/
def dyadic (n k : Nat) : F64 := round false n (-(k : Int))

end F64

/-! ## Data model (`models.go`, `cart_handlers.go`) -/

/-- Go `primitive.ObjectID`; `0` stands for the zero value `NilObjectID`. -/
abbrev ObjectID := Nat

/-- Go `time.Time`, as nanoseconds since the Unix epoch. -/
abbrev Time := Int

/-- The zero value of `time.Time`, January 1 of year 1, 00:00:00 UTC. -/
def zeroTime : Time := -62135596800000000000

/-- BSON datetimes are milliseconds: what a `time.Time` reads back as once stored. -/
def bsonTime (t : Time) : Time := t / 1000000 * 1000000

/-- Go `[]byte`. -/
abbrev Bytes := List Nat

structure CartItem where
  ProductID : String
  Quantity : Int
  Price : F64
deriving DecidableEq, Repr

structure PaymentForm where
  CardNumber : String
  ExpirationDate : String
  CVV : String
  Name : String
  Address : String
deriving DecidableEq, Repr

structure Cart where
  UserID : String
  Items : List CartItem
  UpdatedAt : Time
deriving DecidableEq, Repr

structure Transaction where
  ID : ObjectID
  UserID : String
  Items : List CartItem
  TotalAmount : F64
  Status : String
  CreatedAt : Time
deriving DecidableEq, Repr

/-- The database `db`: the `carts` and the `transactions` collection. -/
structure Store where
  carts : List Cart
  transactions : List Transaction
deriving DecidableEq, Repr

/-- Go `error` values the code tells apart: `mongo.ErrNoDocuments` and anything
else the driver reports. -/
inductive Error where
  | ErrNoDocuments
  | driver (msg : String)
deriving DecidableEq, Repr

deriving instance DecidableEq for Except

/-- Calls of the external collaborators made by a handler, in order. -/
inductive Effect where
  | GenerateReceiptPDF (transaction : Transaction) (customerName : String)
  | SendReceiptEmail (recipient subject body : String) (attachment : Bytes)
deriving DecidableEq, Repr

/-- What the outside world decides for one call. -/
structure Env where
  /-- error reported by `FindOne(...).Decode` other than "no documents" -/
  findErr : Option String
  /-- error reported by `UpdateOne` -/
  updateErr : Option String
  /-- error reported by `InsertOne` other than a duplicate `_id` -/
  insertErr : Option String
  /-- error reported by `DeleteOne` -/
  deleteErr : Option String
  /-- value of `time.Now()` -/
  now : Time
  /-- the `_id` the driver generates for a document inserted without one -/
  newID : ObjectID
  /-- result of `GenerateReceiptPDF` (gopdf, font file) -/
  renderPDF : Transaction → String → Except String Bytes
  /-- result of `email.SendReceiptEmail` (SMTP) -/
  sendMail : String → String → String → Bytes → Option String

/-! ## MongoDB collection operations -/

/-- Go `mongo.UpdateResult`. -/
structure UpdateResult where
  MatchedCount : Nat
  ModifiedCount : Nat
  UpsertedCount : Nat
deriving DecidableEq, Repr

/-- Driver call `collection.FindOne(ctx, filter).Decode(&v)`: the first document
matching the filter. -/
def FindOne {α : Type} (fail : Option String) (filter : α → Bool) (docs : List α) :
    Except Error α :=
  match fail with
  | some msg => .error (.driver msg)
  | none =>
    match docs.find? filter with
    | some d => .ok d
    | none => .error .ErrNoDocuments

/-- Apply `f` to the first document matching `filter`. -/
def updateFirst {α : Type} (filter : α → Bool) (f : α → α) : List α → List α
  | [] => []
  | d :: ds => if filter d then f d :: ds else d :: updateFirst filter f ds

/-- Driver call `collection.UpdateOne(ctx, filter, update, opts)`: updates the first matching
document; when none matches and `upsert` is given, inserts that document. -/
def UpdateOne {α : Type} [DecidableEq α] (fail : Option String) (filter : α → Bool)
    (update : α → α) (upsert : Option α) (docs : List α) :
    Except Error (List α × UpdateResult) :=
  match fail with
  | some msg => .error (.driver msg)
  | none =>
    match docs.find? filter with
    | some d => .ok (updateFirst filter update docs, ⟨1, if update d = d then 0 else 1, 0⟩)
    | none =>
      match upsert with
      | some d => .ok (docs ++ [d], ⟨0, 0, 1⟩)
      | none => .ok (docs, ⟨0, 0, 0⟩)

/-! ## Cart store and pricing (`cart_handlers.go`) -/

/-- Go `AddItemToUserCart`: `$push` of the item onto `items` of the user's cart, upsert. -/
def AddItemToUserCart (env : Env) (s : Store) (userID : String) (item : CartItem) :
    Store × Option Error :=
  match UpdateOne env.updateErr (fun c => decide (c.UserID = userID))
      (fun c => { c with Items := c.Items ++ [item] })
      (some { UserID := userID, Items := [item], UpdatedAt := zeroTime }) s.carts with
  | .error err => (s, some err)
  | .ok (carts, _) => ({ s with carts := carts }, none)

/-- Go `RetrieveUserCart`: the user's cart, or an empty cart when there is none. -/
def RetrieveUserCart (env : Env) (s : Store) (userID : String) : Except Error Cart :=
  match FindOne env.findErr (fun c => decide (c.UserID = userID)) s.carts with
  | .error .ErrNoDocuments => .ok { UserID := userID, Items := [], UpdatedAt := zeroTime }
  | .error err => .error err
  | .ok cart => .ok cart

/-- Go `ClearUserCart`: `$set` of `items` to the empty array, no upsert. -/
def ClearUserCart (env : Env) (s : Store) (userID : String) : Store × Option Error :=
  match UpdateOne env.updateErr (fun c => decide (c.UserID = userID))
      (fun c => { c with Items := [] }) none s.carts with
  | .error err => (s, some err)
  | .ok (carts, _) => ({ s with carts := carts }, none)

/-- The loop of Go `CalculateTotal`, started with `total`. -/
def CalculateTotal.loop (total : F64) : List CartItem → F64
  | [] => total
  | item :: rest =>
    CalculateTotal.loop (F64.add total (F64.mul item.Price (F64.ofInt item.Quantity))) rest

/-- Go `CalculateTotal`. -/
def CalculateTotal (items : List CartItem) : F64 :=
  CalculateTotal.loop F64.zero items

/-- The total as the specification words it: the line amounts `price × quantity`,
summed from 0 in sequence order. -/
def sumOfLines (items : List CartItem) : F64 :=
  (items.map (fun i => F64.mul i.Price (F64.ofInt i.Quantity))).foldl F64.add F64.zero

/-- Calling `AddItemToUserCart` once per item, in order; stops at the first error. -/
def addAll (env : Env) (userID : String) : Store → List CartItem → Store × Option Error
  | s, [] => (s, none)
  | s, item :: rest =>
    match AddItemToUserCart env s userID item with
    | (s1, none) => addAll env userID s1 rest
    | (s1, some err) => (s1, some err)

/-! ## Transaction ledger (`cart_handlers.go`) -/

/-- Driver call `collection.InsertOne(ctx, doc)` on `transactions`. `Transaction.ID` is
tagged `omitempty`, so a zero `ID` is left out and the driver generates `env.newID`; the
`created_at` field is stored as a BSON datetime. The collection's unique index on
`_id` rejects a document whose `_id` is already present. -/
def InsertOne (env : Env) (doc : Transaction) (docs : List Transaction) :
    Except Error (List Transaction) :=
  match env.insertErr with
  | some msg => .error (.driver msg)
  | none =>
    let id := if doc.ID = 0 then env.newID else doc.ID
    if docs.any (fun t => decide (t.ID = id)) then
      .error (.driver "E11000 duplicate key error")
    else
      .ok (docs ++ [{ doc with ID := id, CreatedAt := bsonTime doc.CreatedAt }])

/-- Driver call `collection.DeleteOne(ctx, filter)`: removes the first matching document. -/
def DeleteOne {α : Type} (fail : Option String) (filter : α → Bool) (docs : List α) :
    Except Error (List α) :=
  match fail with
  | some msg => .error (.driver msg)
  | none => .ok (docs.eraseP filter)

/-- Go `CreateTransactionFromCart`. The error of `ClearUserCart` is dropped. -/
def CreateTransactionFromCart (env : Env) (s : Store) (userID : String) :
    Store × Except Error Transaction :=
  match RetrieveUserCart env s userID with
  | .error err => (s, .error err)
  | .ok cart =>
    let transaction : Transaction :=
      { ID := 0
        UserID := userID
        Items := cart.Items
        TotalAmount := CalculateTotal cart.Items
        Status := "pending"
        CreatedAt := env.now }
    match InsertOne env transaction s.transactions with
    | .error err => (s, .error err)
    | .ok transactions =>
      ((ClearUserCart env { s with transactions := transactions } userID).1, .ok transaction)

/-- Go `RetrievePendingTransaction`: the first transaction of the user with status
`"pending"`. -/
def RetrievePendingTransaction (env : Env) (s : Store) (userID : String) :
    Except Error Transaction :=
  FindOne env.findErr (fun t => decide (t.UserID = userID) && decide (t.Status = "pending"))
    s.transactions

/-- Go `UpdateTransactionStatus`. -/
def UpdateTransactionStatus (env : Env) (s : Store) (transactionID : ObjectID)
    (status : String) : Store × Option Error :=
  match UpdateOne env.updateErr (fun t => decide (t.ID = transactionID))
      (fun t => { t with Status := status }) none s.transactions with
  | .error err => (s, some err)
  | .ok (transactions, result) =>
    if result.ModifiedCount = 0 then
      ({ s with transactions := transactions }, some .ErrNoDocuments)
    else
      ({ s with transactions := transactions }, none)

/-- Go `RetrieveUserTransactions`. -/
def RetrieveUserTransactions (env : Env) (s : Store) (userID : String) :
    Except Error (List Transaction) :=
  match env.findErr with
  | some msg => .error (.driver msg)
  | none => .ok (s.transactions.filter (fun t => decide (t.UserID = userID)))

/-- The document a descending sort on `created_at` puts first; among equal
timestamps the earliest in natural order. -/
def latest : List Transaction → Option Transaction
  | [] => none
  | t :: ts =>
    match latest ts with
    | none => some t
    | some u => if t.CreatedAt < u.CreatedAt then some u else some t

/-! ## HTTP handlers (`cart_handlers.go`) -/

/-- What a handler reads of `*http.Request`: the method, the outcome of decoding
the JSON body, and the `userID` the JWT middleware put in the context, if any. -/
structure Request (β : Type) where
  Method : String
  Body : Except String β
  userID : Option String

/-- What a handler writes to `http.ResponseWriter`. -/
structure Response where
  status : Nat
  body : String
deriving DecidableEq, Repr

/-- Go `http.Error(w, msg, code)`. -/
def httpError (msg : String) (code : Nat) : Response := ⟨code, msg ++ "\n"⟩

/-- A handler's result: the store it leaves, its response, and the collaborators it called. -/
structure Outcome where
  store : Store
  response : Response
  effects : List Effect
deriving DecidableEq, Repr

/-- Go `AddProductToCart`. The error of `Body` is the text of the decoding error. -/
def AddProductToCart (env : Env) (s : Store) (r : Request CartItem) : Outcome :=
  if r.Method ≠ "POST" then ⟨s, httpError "Invalid request method" 405, []⟩ else
  match r.Body with
  | .error err => ⟨s, httpError err 400, []⟩
  | .ok item =>
    if item.ProductID = "" then ⟨s, httpError "Product ID is required" 400, []⟩ else
    match r.userID with
    | none => ⟨s, httpError "User ID not found in context" 401, []⟩
    | some userID =>
      match AddItemToUserCart env s userID item with
      | (s1, some _) => ⟨s1, httpError "Failed to add item to cart" 500, []⟩
      | (s1, none) => ⟨s1, ⟨200, ""⟩, []⟩

/-- Go `ProcessPayment`. -/
def ProcessPayment (env : Env) (s : Store) (r : Request PaymentForm) : Outcome :=
  if r.Method ≠ "POST" then ⟨s, httpError "Invalid request method" 405, []⟩ else
  match r.Body with
  | .error _ => ⟨s, httpError "Invalid request" 400, []⟩
  | .ok payment =>
    match r.userID with
    | none => ⟨s, httpError "User ID not found in context" 401, []⟩
    | some userID =>
      match RetrievePendingTransaction env s userID with
      | .error _ => ⟨s, httpError "Failed to retrieve transaction" 500, []⟩
      | .ok found =>
        let transaction : Transaction := { found with Status := "completed" }
        match UpdateOne env.updateErr (fun t => decide (t.ID = transaction.ID))
            (fun t => { t with Status := transaction.Status }) none s.transactions with
        | .error _ => ⟨s, httpError "Failed to update transaction status" 500, []⟩
        | .ok (transactions, _) =>
          let s1 : Store := { s with transactions := transactions }
          match env.renderPDF transaction payment.Name with
          | .error _ =>
            ⟨s1, httpError "Failed to generate receipt" 500,
              [.GenerateReceiptPDF transaction payment.Name]⟩
          | .ok pdf =>
            match env.sendMail userID "Your Receipt" "Thank you for your purchase!" pdf with
            | some _ =>
              ⟨s1, httpError "Failed to send receipt email" 500,
                [.GenerateReceiptPDF transaction payment.Name,
                 .SendReceiptEmail userID "Your Receipt" "Thank you for your purchase!" pdf]⟩
            | none =>
              ⟨s1, ⟨200, "\x7b\"redirect\":\"/cart.html\"\x7d\n"⟩,
                [.GenerateReceiptPDF transaction payment.Name,
                 .SendReceiptEmail userID "Your Receipt" "Thank you for your purchase!" pdf]⟩

/-- Go `DeleteLastTransaction`. -/
def DeleteLastTransaction (env : Env) (s : Store) (r : Request Unit) : Outcome :=
  if r.Method ≠ "DELETE" then ⟨s, httpError "Invalid request method" 405, []⟩ else
  match r.userID with
  | none => ⟨s, httpError "User ID not found in context" 401, []⟩
  | some userID =>
    let found : Except Error Transaction :=
      match env.findErr with
      | some msg => .error (.driver msg)
      | none =>
        match latest (s.transactions.filter (fun t => decide (t.UserID = userID))) with
        | some t => .ok t
        | none => .error .ErrNoDocuments
    match found with
    | .error _ => ⟨s, httpError "Failed to find last transaction" 500, []⟩
    | .ok lastTransaction =>
      match DeleteOne env.deleteErr (fun t => decide (t.ID = lastTransaction.ID))
          s.transactions with
      | .error _ => ⟨s, httpError "Failed to delete last transaction" 500, []⟩
      | .ok transactions => ⟨{ s with transactions := transactions }, ⟨200, ""⟩, []⟩

/-! ## The operations as a transition system -/

/-- One call of an operation of the system. -/
inductive Op where
  | AddItemToUserCart (userID : String) (item : CartItem)
  | ClearUserCart (userID : String)
  | CreateTransactionFromCart (userID : String)
  | ProcessPayment (r : Request PaymentForm)
  | UpdateTransactionStatus (transactionID : ObjectID) (status : String)
  | DeleteLastTransaction (r : Request Unit)

/-- The store an operation leaves behind. -/
def step (env : Env) (s : Store) : Op → Store
  | .AddItemToUserCart userID item => (AddItemToUserCart env s userID item).1
  | .ClearUserCart userID => (ClearUserCart env s userID).1
  | .CreateTransactionFromCart userID => (CreateTransactionFromCart env s userID).1
  | .ProcessPayment r => (ProcessPayment env s r).store
  | .UpdateTransactionStatus transactionID status =>
    (UpdateTransactionStatus env s transactionID status).1
  | .DeleteLastTransaction r => (DeleteLastTransaction env s r).store

/-- The items of the user's first cart document; empty when there is no such document. -/
def cartItems (s : Store) (userID : String) : List CartItem :=
  match s.carts.find? (fun c => decide (c.UserID = userID)) with
  | some c => c.Items
  | none => []

/-- No two transactions share an `_id` (MongoDB's unique index on `_id`). -/
def Store.WF (s : Store) : Prop := (s.transactions.map (fun t => t.ID)).Nodup

instance (s : Store) : Decidable s.WF :=
  inferInstanceAs (Decidable (s.transactions.map (fun t : Transaction => t.ID)).Nodup)

/-- An outside world in which every driver call succeeds. -/
def okEnv : Env :=
  { findErr := none, updateErr := none, insertErr := none, deleteErr := none
    now := 1700000000123456789, newID := 1
    renderPDF := fun _ _ => .ok [37, 80, 68, 70]
    sendMail := fun _ _ _ _ => none }

/-- An outside world in which `InsertOne` reports an error. -/
def insertFailsEnv : Env := { okEnv with insertErr := some "connection reset" }

/-- A store in which `u@x.io` holds one cart with the item (A, quantity 2, price 5.0). -/
def cartStore : Store :=
  { carts := [{ UserID := "u@x.io", Items := [⟨"A", 2, F64.dyadic 5 0⟩], UpdatedAt := zeroTime }]
    transactions := [] }

/-- A pending transaction of `u@x.io`. -/
def pendingTx : Transaction :=
  { ID := 7, UserID := "u@x.io", Items := [⟨"A", 2, F64.dyadic 5 0⟩],
    TotalAmount := F64.dyadic 10 0, Status := "pending", CreatedAt := 1700000000123000000 }

/-- A completed transaction of `v@x.io`. -/
def completedTx : Transaction :=
  { ID := 8, UserID := "v@x.io", Items := [⟨"C", 1, F64.dyadic 1 0⟩],
    TotalAmount := F64.dyadic 1 0, Status := "completed", CreatedAt := 1690000000000000000 }

/-- A ledger holding `completedTx` and `pendingTx`; `u@x.io` also holds a cart. -/
def pendingStore : Store :=
  { carts := [{ UserID := "u@x.io", Items := [⟨"B", 1, F64.dyadic 3 1⟩], UpdatedAt := zeroTime }]
    transactions := [completedTx, pendingTx] }

/-- A well-formed payment request of `u@x.io`. -/
def payRequest : Request PaymentForm :=
  { Method := "POST"
    Body := .ok { CardNumber := "4111111111111111", ExpirationDate := "12/30", CVV := "123",
                  Name := "U", Address := "1 Main St" }
    userID := some "u@x.io" }

/-- A well-formed payment request of `v@x.io`, who has no pending transaction in
`pendingStore`. -/
def payRequestV : Request PaymentForm := { payRequest with userID := some "v@x.io" }

/-- Every transaction has one of the two statuses of the data model. -/
def Store.StatusOK (s : Store) : Prop :=
  ∀ t ∈ s.transactions, t.Status = "pending" ∨ t.Status = "completed"

instance (s : Store) : Decidable s.StatusOK :=
  inferInstanceAs (Decidable (∀ t ∈ s.transactions,
    t.Status = "pending" ∨ t.Status = "completed"))

/-- The calls under which the status order `pending → completed` is kept:
`UpdateTransactionStatus` only when asked to set `"completed"`, every other operation
always. -/
def Op.setsCompletedOnly : Op → Prop
  | .UpdateTransactionStatus _ status => status = "completed"
  | _ => True

/-- A ledger whose only transaction is completed. -/
def completedStore : Store := { carts := [], transactions := [completedTx] }

/-- A request to the add endpoint whose item has no product id. -/
def emptyIDRequest : Request CartItem :=
  { Method := "POST", Body := .ok ⟨"", 1, F64.dyadic 5 0⟩, userID := some "u@x.io" }

/-- A delete request of `u@x.io`. -/
def deleteRequest : Request Unit :=
  { Method := "DELETE", Body := .ok (), userID := some "u@x.io" }

/-- An older, completed transaction of `u@x.io`. -/
def olderTx : Transaction :=
  { ID := 5, UserID := "u@x.io", Items := [⟨"D", 1, F64.dyadic 1 0⟩],
    TotalAmount := F64.dyadic 1 0, Status := "completed", CreatedAt := 1680000000000000000 }

/-- A ledger with two transactions of `u@x.io` and one of `v@x.io`. -/
def ledgerStore : Store := { carts := [], transactions := [olderTx, completedTx, pendingTx] }

/-- An outside world in which the mail dispatch fails. -/
def mailFailsEnv : Env := { okEnv with sendMail := fun _ _ _ _ => some "dial tcp: i/o timeout" }

/-- An outside world in which the receipt cannot be rendered. -/
def pdfFailsEnv : Env := { okEnv with renderPDF := fun _ _ => .error "open arial.ttf: no such file" }

/-- The outside world of a later call: a later clock and the next generated `_id`. -/
def laterEnv : Env := { okEnv with now := 1700000060000000000, newID := 2 }

/-! ## Lemmas on collections -/

theorem find?_updateFirst {α : Type} (p : α → Bool) (f : α → α) (h : ∀ d, p (f d) = p d)
    (docs : List α) : (updateFirst p f docs).find? p = (docs.find? p).map f := by
  induction docs with
  | nil => rfl
  | cons d ds ih =>
    by_cases hd : p d
    · simp [updateFirst, hd, List.find?, h]
    · simp [updateFirst, hd, List.find?, ih]

theorem updateFirst_of_find?_none {α : Type} (p : α → Bool) (f : α → α) (docs : List α)
    (h : docs.find? p = none) : updateFirst p f docs = docs := by
  induction docs with
  | nil => rfl
  | cons d ds ih =>
    by_cases hd : p d
    · simp [List.find?, hd] at h
    · simp [List.find?, hd] at h
      simp [updateFirst, hd]
      exact ih (by simpa using h)

theorem loop_eq_foldl (acc : F64) (items : List CartItem) :
    CalculateTotal.loop acc items =
      (items.map (fun i => F64.mul i.Price (F64.ofInt i.Quantity))).foldl F64.add acc := by
  induction items generalizing acc with
  | nil => rfl
  | cons i rest ih => simp [CalculateTotal.loop, ih]

/-! ## Claims -/

set_option maxRecDepth 100000 in
/-- C3: `CalculateTotal` is the sum of `price × quantity` over the sequence, accumulated
left to right from 0; it is 0 on the empty sequence, and on the items
(price 2.50, quantity 3), (price 1.00, quantity 1) it is 8.50. -/
theorem CalculateTotal_spec :
    (∀ items : List CartItem, CalculateTotal items = sumOfLines items) ∧
    CalculateTotal [] = F64.zero ∧
    (∀ p1 p2 : String,
      CalculateTotal [⟨p1, 3, F64.dyadic 5 1⟩, ⟨p2, 1, F64.dyadic 1 0⟩] = F64.dyadic 17 1) := by
  refine ⟨fun items => loop_eq_foldl _ _, rfl, fun p1 p2 => ?_⟩
  simp only [CalculateTotal, CalculateTotal.loop]
  decide

theorem RetrieveUserCart_items (env : Env) (s : Store) (userID : String)
    (hfind : env.findErr = none) :
    ∃ cart, RetrieveUserCart env s userID = .ok cart ∧ cart.UserID = userID ∧
      cart.Items = cartItems s userID := by
  unfold RetrieveUserCart FindOne cartItems
  rw [hfind]
  cases h : s.carts.find? (fun c => decide (c.UserID = userID)) with
  | none => exact ⟨_, rfl, rfl, rfl⟩
  | some c =>
    refine ⟨c, rfl, ?_, rfl⟩
    simpa using List.find?_some h

theorem cartItems_AddItemToUserCart (env : Env) (s : Store) (userID : String)
    (item : CartItem) (hupd : env.updateErr = none) :
    (AddItemToUserCart env s userID item).2 = none ∧
    cartItems (AddItemToUserCart env s userID item).1 userID =
      cartItems s userID ++ [item] := by
  unfold AddItemToUserCart UpdateOne cartItems
  rw [hupd]
  cases h : s.carts.find? (fun c => decide (c.UserID = userID)) with
  | none =>
    simp [List.find?_append, h]
  | some c =>
    simp only []
    have hf := find?_updateFirst (fun c : Cart => decide (c.UserID = userID))
      (fun c => { c with Items := c.Items ++ [item] }) (fun d => rfl) s.carts
    rw [hf, h]
    exact ⟨trivial, rfl⟩

theorem cartItems_addAll (env : Env) (userID : String) (hupd : env.updateErr = none)
    (items : List CartItem) (s : Store) :
    (addAll env userID s items).2 = none ∧
    cartItems (addAll env userID s items).1 userID = cartItems s userID ++ items := by
  induction items generalizing s with
  | nil => simp [addAll]
  | cons item rest ih =>
    have h := cartItems_AddItemToUserCart env s userID item hupd
    unfold addAll
    cases hr : AddItemToUserCart env s userID item with
    | mk s1 err =>
      rw [hr] at h
      simp only at h
      obtain ⟨h1, h2⟩ := h
      subst h1
      simp only []
      rw [(ih s1).2, h2]
      exact ⟨(ih s1).1, by simp⟩

/-- C1: starting from a store with no cart for the user, the calls
`AddItemToUserCart(user, i1)`, ..., `AddItemToUserCart(user, in)`, none of which the
driver fails, all succeed and leave a cart whose item list, as `RetrieveUserCart(user)`
returns it, is exactly `[i1, ..., in]` in call order, nothing merged. -/
theorem addAll_RetrieveUserCart (env : Env) (s : Store) (userID : String)
    (items : List CartItem) (hupd : env.updateErr = none) (hfind : env.findErr = none)
    (hno : ∀ c ∈ s.carts, c.UserID ≠ userID) :
    (addAll env userID s items).2 = none ∧
    ∃ cart, RetrieveUserCart env (addAll env userID s items).1 userID = .ok cart ∧
      cart.UserID = userID ∧ cart.Items = items := by
  refine ⟨(cartItems_addAll env userID hupd items s).1, ?_⟩
  obtain ⟨cart, h1, h2, h3⟩ :=
    RetrieveUserCart_items env (addAll env userID s items).1 userID hfind
  refine ⟨cart, h1, h2, ?_⟩
  rw [h3, (cartItems_addAll env userID hupd items s).2]
  have : cartItems s userID = [] := by
    unfold cartItems
    have hn : s.carts.find? (fun c => decide (c.UserID = userID)) = none := by
      rw [List.find?_eq_none]
      intro c hc
      simpa using hno c hc
    rw [hn]
  rw [this, List.nil_append]

/-- C1 at a concrete input: two items with the same product id stay two entries. -/
theorem addAll_RetrieveUserCart_witness :
    okEnv.updateErr = none ∧ okEnv.findErr = none ∧
    (∀ c ∈ (Store.mk [] []).carts, c.UserID ≠ "u@x.io") ∧
    (addAll okEnv "u@x.io" ⟨[], []⟩ [⟨"A", 2, F64.dyadic 5 0⟩, ⟨"A", 1, F64.dyadic 5 0⟩]).2
      = none ∧
    ∃ cart, RetrieveUserCart okEnv
        (addAll okEnv "u@x.io" ⟨[], []⟩
          [⟨"A", 2, F64.dyadic 5 0⟩, ⟨"A", 1, F64.dyadic 5 0⟩]).1 "u@x.io" = .ok cart ∧
      cart.UserID = "u@x.io" ∧
      cart.Items = [⟨"A", 2, F64.dyadic 5 0⟩, ⟨"A", 1, F64.dyadic 5 0⟩] :=
  ⟨rfl, rfl, by simp, addAll_RetrieveUserCart okEnv ⟨[], []⟩ "u@x.io" _ rfl rfl (by simp)⟩

theorem cartItems_ClearUserCart (env : Env) (s : Store) (userID : String)
    (hupd : env.updateErr = none) :
    (ClearUserCart env s userID).2 = none ∧
    (ClearUserCart env s userID).1.transactions = s.transactions ∧
    cartItems (ClearUserCart env s userID).1 userID = [] := by
  unfold ClearUserCart UpdateOne cartItems
  rw [hupd]
  cases h : s.carts.find? (fun c => decide (c.UserID = userID)) with
  | none => simp [h]
  | some c =>
    simp only []
    have hf := find?_updateFirst (fun c : Cart => decide (c.UserID = userID))
      (fun c => { c with Items := [] }) (fun d => rfl) s.carts
    rw [hf, h]
    exact ⟨trivial, trivial, rfl⟩

theorem InsertOne_fresh (env : Env) (doc : Transaction) (docs : List Transaction)
    (hins : env.insertErr = none) (hzero : doc.ID = 0)
    (hfresh : ∀ t ∈ docs, t.ID ≠ env.newID) :
    InsertOne env doc docs =
      .ok (docs ++ [{ doc with ID := env.newID, CreatedAt := bsonTime doc.CreatedAt }]) := by
  unfold InsertOne
  rw [hins]
  have hany : docs.any (fun t => decide (t.ID = env.newID)) = false := by
    rw [List.any_eq_false]
    intro t ht
    simpa using hfresh t ht
  simp [hzero, hany]

/-- C2: when the driver calls succeed and the generated `_id` is new,
`CreateTransactionFromCart(user)` returns a transaction with `userID = user`, status
`"pending"`, the items of the user's cart before the call and `CalculateTotal` of them as
total; the ledger gains exactly that transaction under the generated `_id`; and
afterwards the user's cart has an empty item list. -/
theorem CreateTransactionFromCart_spec (env : Env) (s : Store) (userID : String)
    (hfind : env.findErr = none) (hins : env.insertErr = none)
    (hupd : env.updateErr = none) (hfresh : ∀ t ∈ s.transactions, t.ID ≠ env.newID) :
    ∃ cart tx, RetrieveUserCart env s userID = .ok cart ∧
      (CreateTransactionFromCart env s userID).2 = .ok tx ∧
      tx.UserID = userID ∧ tx.Status = "pending" ∧ tx.Items = cart.Items ∧
      tx.TotalAmount = CalculateTotal cart.Items ∧
      (CreateTransactionFromCart env s userID).1.transactions =
        s.transactions ++ [{ tx with ID := env.newID, CreatedAt := bsonTime env.now }] ∧
      ∃ cart1, RetrieveUserCart env (CreateTransactionFromCart env s userID).1 userID
          = .ok cart1 ∧ cart1.UserID = userID ∧ cart1.Items = [] := by
  obtain ⟨cart, hc, -, -⟩ := RetrieveUserCart_items env s userID hfind
  have hi := InsertOne_fresh env
    { ID := 0, UserID := userID, Items := cart.Items, TotalAmount := CalculateTotal cart.Items,
      Status := "pending", CreatedAt := env.now } s.transactions hins rfl hfresh
  have hcl := cartItems_ClearUserCart env
    { s with transactions := s.transactions ++
      [{ ID := env.newID, UserID := userID, Items := cart.Items,
         TotalAmount := CalculateTotal cart.Items, Status := "pending",
         CreatedAt := bsonTime env.now }] } userID hupd
  have hres : CreateTransactionFromCart env s userID =
      ((ClearUserCart env { s with transactions := s.transactions ++
          [{ ID := env.newID, UserID := userID, Items := cart.Items,
             TotalAmount := CalculateTotal cart.Items, Status := "pending",
             CreatedAt := bsonTime env.now }] } userID).1,
        .ok { ID := 0, UserID := userID, Items := cart.Items,
              TotalAmount := CalculateTotal cart.Items, Status := "pending",
              CreatedAt := env.now }) := by
    unfold CreateTransactionFromCart
    rw [hc]
    simp only []
    rw [hi]
  refine ⟨cart, _, hc, by rw [hres], rfl, rfl, rfl, rfl, ?_, ?_⟩
  · rw [hres]
    exact hcl.2.1
  · rw [hres]
    obtain ⟨cart1, h1, h2, h3⟩ := RetrieveUserCart_items env
      (ClearUserCart env { s with transactions := s.transactions ++
          [{ ID := env.newID, UserID := userID, Items := cart.Items,
             TotalAmount := CalculateTotal cart.Items, Status := "pending",
             CreatedAt := bsonTime env.now }] } userID).1 userID hfind
    exact ⟨cart1, h1, h2, by rw [h3, hcl.2.2]⟩

set_option maxRecDepth 100000 in
/-- C2 at the cart (A, quantity 2, price 5.0): a pending transaction with total 10.0 and
an empty cart. -/
theorem CreateTransactionFromCart_spec_witness :
    okEnv.findErr = none ∧ okEnv.insertErr = none ∧ okEnv.updateErr = none ∧
    (∀ t ∈ cartStore.transactions, t.ID ≠ okEnv.newID) ∧
    (∃ cart tx, RetrieveUserCart okEnv cartStore "u@x.io" = .ok cart ∧
      (CreateTransactionFromCart okEnv cartStore "u@x.io").2 = .ok tx ∧
      tx.UserID = "u@x.io" ∧ tx.Status = "pending" ∧ tx.Items = cart.Items ∧
      tx.TotalAmount = CalculateTotal cart.Items ∧
      (CreateTransactionFromCart okEnv cartStore "u@x.io").1.transactions =
        cartStore.transactions ++
          [{ tx with ID := okEnv.newID, CreatedAt := bsonTime okEnv.now }] ∧
      ∃ cart1, RetrieveUserCart okEnv (CreateTransactionFromCart okEnv cartStore "u@x.io").1
          "u@x.io" = .ok cart1 ∧ cart1.UserID = "u@x.io" ∧ cart1.Items = []) ∧
    CreateTransactionFromCart okEnv cartStore "u@x.io" =
      ({ carts := [{ UserID := "u@x.io", Items := [], UpdatedAt := zeroTime }]
         transactions := [{ ID := 1, UserID := "u@x.io", Items := [⟨"A", 2, F64.dyadic 5 0⟩],
                            TotalAmount := F64.dyadic 10 0, Status := "pending",
                            CreatedAt := 1700000000123000000 }] },
       .ok { ID := 0, UserID := "u@x.io", Items := [⟨"A", 2, F64.dyadic 5 0⟩],
             TotalAmount := F64.dyadic 10 0, Status := "pending",
             CreatedAt := 1700000000123456789 }) :=
  ⟨rfl, rfl, rfl, by simp [cartStore],
   CreateTransactionFromCart_spec okEnv cartStore "u@x.io" rfl rfl rfl (by simp [cartStore]),
   by decide⟩

/-- C6: if the insert inside `CreateTransactionFromCart` fails, the operation returns
that error and no transaction, and the whole store (the user's cart, every other cart,
every transaction) is as before the call; more generally any error outcome leaves the
store as it was, so the cart is cleared only after a successful insert. -/
theorem CreateTransactionFromCart_insert_error (env : Env) (s : Store) (userID : String)
    (cart : Cart) (err : Error) (hcart : RetrieveUserCart env s userID = .ok cart)
    (hins : InsertOne env
      { ID := 0, UserID := userID, Items := cart.Items,
        TotalAmount := CalculateTotal cart.Items, Status := "pending", CreatedAt := env.now }
      s.transactions = .error err) :
    CreateTransactionFromCart env s userID = (s, .error err) ∧
    ∀ (env1 : Env) (s1 : Store) (u : String) (e : Error),
      (CreateTransactionFromCart env1 s1 u).2 = .error e →
        (CreateTransactionFromCart env1 s1 u).1 = s1 := by
  constructor
  · unfold CreateTransactionFromCart
    rw [hcart]
    simp only []
    rw [hins]
  · intro env1 s1 u e
    unfold CreateTransactionFromCart
    cases RetrieveUserCart env1 s1 u with
    | error e1 => intro _; rfl
    | ok c =>
      simp only []
      cases InsertOne env1 _ s1.transactions with
      | error e2 => intro _; rfl
      | ok txs => intro h; cases h

set_option maxRecDepth 100000 in
/-- C6 at a concrete input: the driver reports an error on the insert. -/
theorem CreateTransactionFromCart_insert_error_witness :
    RetrieveUserCart insertFailsEnv cartStore "u@x.io" =
      .ok { UserID := "u@x.io", Items := [⟨"A", 2, F64.dyadic 5 0⟩], UpdatedAt := zeroTime } ∧
    CreateTransactionFromCart insertFailsEnv cartStore "u@x.io" =
      (cartStore, .error (.driver "connection reset")) :=
  ⟨by decide,
   (CreateTransactionFromCart_insert_error insertFailsEnv cartStore "u@x.io"
      { UserID := "u@x.io", Items := [⟨"A", 2, F64.dyadic 5 0⟩], UpdatedAt := zeroTime }
      (.driver "connection reset") (by decide) (by decide)).1⟩

theorem eq_of_ID_eq {l : List Transaction} (hnd : (l.map (fun t => t.ID)).Nodup)
    {a b : Transaction} (ha : a ∈ l) (hb : b ∈ l) (h : a.ID = b.ID) : a = b :=
  List.inj_on_of_nodup_map hnd ha hb h

theorem updateFirst_eq_map {l : List Transaction} (hnd : (l.map (fun t => t.ID)).Nodup)
    (f : Transaction → Transaction) {t : Transaction} (ht : t ∈ l) :
    updateFirst (fun x => decide (x.ID = t.ID)) f l =
      l.map (fun x => if x = t then f t else x) := by
  induction l with
  | nil => cases ht
  | cons d ds ih =>
    rw [List.map_cons, List.nodup_cons] at hnd
    by_cases hd : d = t
    · subst hd
      have hrest : ∀ x ∈ ds, ¬ x = d := by
        intro x hx hxd
        exact hnd.1 (List.mem_map.2 ⟨x, hx, by rw [hxd]⟩)
      have hmap : ds.map (fun x => if x = d then f d else x) = ds := by
        conv_rhs => rw [← List.map_id ds]
        apply List.map_congr_left
        intro x hx
        simp [hrest x hx]
      simp [updateFirst, hmap]
    · have ht2 : t ∈ ds := by
        rcases List.mem_cons.1 ht with h | h
        · exact absurd h.symm hd
        · exact h
      have hid : ¬ d.ID = t.ID := by
        intro h
        exact hnd.1 (List.mem_map.2 ⟨t, ht2, h.symm⟩)
      simp [updateFirst, hid, hd, ih hnd.2 ht2]

theorem FindOne_ok {α : Type} {fail : Option String} {p : α → Bool} {docs : List α} {d : α}
    (h : FindOne fail p docs = .ok d) : fail = none ∧ d ∈ docs ∧ p d = true := by
  unfold FindOne at h
  cases fail with
  | some msg => cases h
  | none =>
    cases hf : docs.find? p with
    | none => rw [hf] at h; cases h
    | some x =>
      rw [hf] at h
      cases h
      exact ⟨rfl, List.mem_of_find?_eq_some hf, List.find?_some hf⟩

theorem RetrievePendingTransaction_ok {env : Env} {s : Store} {userID : String}
    {t : Transaction} (h : RetrievePendingTransaction env s userID = .ok t) :
    env.findErr = none ∧ t ∈ s.transactions ∧ t.UserID = userID ∧ t.Status = "pending" := by
  obtain ⟨h1, h2, h3⟩ := FindOne_ok h
  simp at h3
  exact ⟨h1, h2, h3.1, h3.2⟩

/-- C4: for an authenticated user with a pending transaction, a `ProcessPayment` call
whose store update, receipt rendering and mail dispatch succeed answers 200 and changes
the status of the transaction `RetrievePendingTransaction(user)` returns to `"completed"`;
every other field of that transaction, every other transaction and every cart are
unchanged. -/
theorem ProcessPayment_success (env : Env) (s : Store) (r : Request PaymentForm)
    (payment : PaymentForm) (userID : String) (t : Transaction) (pdf : Bytes)
    (hwf : s.WF) (hm : r.Method = "POST") (hb : r.Body = .ok payment)
    (hu : r.userID = some userID)
    (hpend : RetrievePendingTransaction env s userID = .ok t)
    (hupd : env.updateErr = none)
    (hpdf : env.renderPDF { t with Status := "completed" } payment.Name = .ok pdf)
    (hmail : env.sendMail userID "Your Receipt" "Thank you for your purchase!" pdf = none) :
    (ProcessPayment env s r).response.status = 200 ∧
    t ∈ s.transactions ∧ t.UserID = userID ∧ t.Status = "pending" ∧
    (ProcessPayment env s r).store.transactions =
      s.transactions.map (fun x => if x = t then { t with Status := "completed" } else x) ∧
    (ProcessPayment env s r).store.carts = s.carts ∧
    (ProcessPayment env s r).effects =
      [.GenerateReceiptPDF { t with Status := "completed" } payment.Name,
       .SendReceiptEmail userID "Your Receipt" "Thank you for your purchase!" pdf] := by
  obtain ⟨-, hmem, huid, hst⟩ := RetrievePendingTransaction_ok hpend
  have hfind : s.transactions.find? (fun x => decide (x.ID = t.ID)) ≠ none := by
    intro hn
    rw [List.find?_eq_none] at hn
    simpa using hn t hmem
  have hres : ProcessPayment env s r =
      ⟨⟨s.carts, updateFirst (fun x => decide (x.ID = t.ID))
          (fun x => { x with Status := "completed" }) s.transactions⟩,
        ⟨200, "\x7b\"redirect\":\"/cart.html\"\x7d\n"⟩,
        [.GenerateReceiptPDF { t with Status := "completed" } payment.Name,
         .SendReceiptEmail userID "Your Receipt" "Thank you for your purchase!" pdf]⟩ := by
    unfold ProcessPayment
    rw [hb, hu]
    simp only [hm, ne_eq, not_true_eq_false, if_false]
    rw [hpend]
    simp only []
    unfold UpdateOne
    rw [hupd]
    cases hf : s.transactions.find? (fun x => decide (x.ID = t.ID)) with
    | none => exact absurd hf hfind
    | some d =>
      simp only []
      rw [hpdf]
      simp only []
      rw [hmail]
  rw [hres]
  refine ⟨rfl, hmem, huid, hst, ?_, rfl, rfl⟩
  exact updateFirst_eq_map hwf _ hmem

/-- C4 at a concrete input: `u@x.io` pays the pending transaction 7; transaction 8 and
the cart stay as they were. -/
theorem ProcessPayment_success_witness :
    pendingStore.WF ∧ payRequest.Method = "POST" ∧ payRequest.userID = some "u@x.io" ∧
    okEnv.updateErr = none ∧
    RetrievePendingTransaction okEnv pendingStore "u@x.io" = .ok pendingTx ∧
    (ProcessPayment okEnv pendingStore payRequest).response.status = 200 ∧
    (ProcessPayment okEnv pendingStore payRequest).store.transactions =
      [completedTx, { pendingTx with Status := "completed" }] ∧
    (ProcessPayment okEnv pendingStore payRequest).store.carts = pendingStore.carts :=
  have h := ProcessPayment_success okEnv pendingStore payRequest
    { CardNumber := "4111111111111111", ExpirationDate := "12/30", CVV := "123",
      Name := "U", Address := "1 Main St" } "u@x.io" pendingTx [37, 80, 68, 70]
    (by decide) rfl rfl rfl (by decide) rfl rfl rfl
  ⟨by decide, rfl, rfl, rfl, by decide, h.1, by rw [h.2.2.2.2.1]; decide, h.2.2.2.2.2.1⟩

theorem RetrievePendingTransaction_none (env : Env) (s : Store) (userID : String)
    (hno : ∀ t ∈ s.transactions, t.UserID = userID → t.Status ≠ "pending") :
    (∃ e, RetrievePendingTransaction env s userID = .error e) ∧
    (env.findErr = none → RetrievePendingTransaction env s userID = .error .ErrNoDocuments) := by
  have hn : s.transactions.find?
      (fun t => decide (t.UserID = userID) && decide (t.Status = "pending")) = none := by
    rw [List.find?_eq_none]
    intro t ht
    simpa using hno t ht
  unfold RetrievePendingTransaction FindOne
  rw [hn]
  cases env.findErr with
  | none => exact ⟨⟨_, rfl⟩, fun _ => rfl⟩
  | some msg => exact ⟨⟨_, rfl⟩, fun h => by cases h⟩

/-- C5: when the user of the request has no transaction of status `"pending"`,
`ProcessPayment` answers with a failure, leaves the whole store as it was, renders no
receipt and dispatches no mail; for a well-formed POST on a working store the failure
is the one of the missing pending transaction (`ErrNoDocuments`, answer 500). -/
theorem ProcessPayment_no_pending (env : Env) (s : Store) (r : Request PaymentForm)
    (userID : String) (hu : r.userID = some userID)
    (hno : ∀ t ∈ s.transactions, t.UserID = userID → t.Status ≠ "pending") :
    (ProcessPayment env s r).store = s ∧
    (ProcessPayment env s r).effects = [] ∧
    (ProcessPayment env s r).response.status ≠ 200 ∧
    (r.Method = "POST" → (∃ payment, r.Body = .ok payment) → env.findErr = none →
      RetrievePendingTransaction env s userID = .error .ErrNoDocuments ∧
      (ProcessPayment env s r).response = httpError "Failed to retrieve transaction" 500) := by
  obtain ⟨⟨e, he⟩, hnd⟩ := RetrievePendingTransaction_none env s userID hno
  have key : ∃ resp, ProcessPayment env s r = ⟨s, resp, []⟩ ∧ resp.status ≠ 200 ∧
      (r.Method = "POST" → (∃ payment, r.Body = .ok payment) →
        resp = httpError "Failed to retrieve transaction" 500) := by
    unfold ProcessPayment
    split
    · rename_i hm
      exact ⟨_, rfl, by decide, fun h => absurd h hm⟩
    · split
      · rename_i hb
        refine ⟨_, rfl, by decide, ?_⟩
        rintro - ⟨p, hp⟩
        rw [hb] at hp
        cases hp
      · rw [hu]
        simp only []
        rw [he]
        exact ⟨_, rfl, by decide, fun _ _ => rfl⟩
  obtain ⟨resp, hres, hstatus, hresp⟩ := key
  rw [hres]
  exact ⟨rfl, rfl, hstatus, fun hm hb hf => ⟨hnd hf, hresp hm hb⟩⟩

/-- C5 at a concrete input: `v@x.io` has only a completed transaction. -/
theorem ProcessPayment_no_pending_witness :
    payRequestV.userID = some "v@x.io" ∧
    (∀ t ∈ pendingStore.transactions, t.UserID = "v@x.io" → t.Status ≠ "pending") ∧
    (ProcessPayment okEnv pendingStore payRequestV).store = pendingStore ∧
    (ProcessPayment okEnv pendingStore payRequestV).effects = [] ∧
    (ProcessPayment okEnv pendingStore payRequestV).response =
      httpError "Failed to retrieve transaction" 500 :=
  have h := ProcessPayment_no_pending okEnv pendingStore payRequestV "v@x.io" rfl (by decide)
  ⟨rfl, by decide, h.1, h.2.1, (h.2.2.2 rfl ⟨_, rfl⟩ rfl).2⟩

/-- What `UpdateTransactionStatus` returns when a record matches the id and the driver
call goes through: success exactly when the record had another status. -/
theorem UpdateTransactionStatus_matched (env : Env) (s : Store) (transactionID : ObjectID)
    (status : String) (d : Transaction) (hupd : env.updateErr = none)
    (hd : s.transactions.find? (fun t => decide (t.ID = transactionID)) = some d) :
    (UpdateTransactionStatus env s transactionID status).2 =
      if d.Status = status then some .ErrNoDocuments else none := by
  unfold UpdateTransactionStatus UpdateOne
  rw [hupd, hd]
  simp only []
  have hiff : ({ d with Status := status } : Transaction) = d ↔ d.Status = status := by
    constructor
    · intro h
      exact (congrArg Transaction.Status h).symm
    · intro h
      rw [← h]
  by_cases hs : d.Status = status
  · simp [hs, hiff.2 hs]
  · have hne : ¬ ({ d with Status := status } : Transaction) = d := fun h => hs (hiff.1 h)
    simp [hs, hne]

/-- C7 fails on the code: transaction 8 exists with status `"completed"`, yet
`UpdateTransactionStatus(8, "completed")` returns `mongo.ErrNoDocuments`, because the
code tests `ModifiedCount`, which is 0 for a matched document that already has the value. -/
theorem UpdateTransactionStatus_matched_unchanged :
    completedTx ∈ pendingStore.transactions ∧ completedTx.ID = 8 ∧
    completedTx.Status = "completed" ∧
    UpdateTransactionStatus okEnv pendingStore 8 "completed" =
      (pendingStore, some .ErrNoDocuments) := by
  decide

/-- C8: for an id that matches no record, `UpdateTransactionStatus(id, status)` leaves
the store as it was and, the driver call going through, returns `mongo.ErrNoDocuments`. -/
theorem UpdateTransactionStatus_no_match (env : Env) (s : Store) (transactionID : ObjectID)
    (status : String) (hno : ∀ t ∈ s.transactions, t.ID ≠ transactionID) :
    (UpdateTransactionStatus env s transactionID status).1 = s ∧
    (env.updateErr = none →
      (UpdateTransactionStatus env s transactionID status).2 = some .ErrNoDocuments) := by
  have hn : s.transactions.find? (fun t => decide (t.ID = transactionID)) = none := by
    rw [List.find?_eq_none]
    intro t ht
    simpa using hno t ht
  unfold UpdateTransactionStatus UpdateOne
  rw [hn]
  cases env.updateErr with
  | none => exact ⟨rfl, fun _ => rfl⟩
  | some msg => exact ⟨rfl, fun h => by cases h⟩

/-- C8 at a concrete input: no transaction has id 99. -/
theorem UpdateTransactionStatus_no_match_witness :
    (∀ t ∈ pendingStore.transactions, t.ID ≠ 99) ∧
    UpdateTransactionStatus okEnv pendingStore 99 "completed" =
      (pendingStore, some .ErrNoDocuments) :=
  have h := UpdateTransactionStatus_no_match okEnv pendingStore 99 "completed" (by decide)
  ⟨by decide, Prod.ext h.1 (h.2 rfl)⟩

theorem updateFirst_idem {α : Type} (p : α → Bool) (f : α → α) (hp : ∀ d, p (f d) = p d)
    (hf : ∀ d, f (f d) = f d) (docs : List α) :
    updateFirst p f (updateFirst p f docs) = updateFirst p f docs := by
  induction docs with
  | nil => rfl
  | cons d ds ih =>
    by_cases hd : p d
    · simp [updateFirst, hd, hp, hf]
    · simp [updateFirst, hd, ih]

theorem UpdateOne_ok {α : Type} [DecidableEq α] {fail : Option String} {p : α → Bool}
    {f : α → α} {docs txs : List α} {res : UpdateResult}
    (h : UpdateOne fail p f none docs = .ok (txs, res)) : txs = updateFirst p f docs := by
  unfold UpdateOne at h
  cases fail with
  | some msg => cases h
  | none =>
    cases hf : docs.find? p with
    | none =>
      rw [hf] at h
      cases h
      exact (updateFirst_of_find?_none p f docs hf).symm
    | some d =>
      rw [hf] at h
      cases h
      rfl

/-- C10: `ClearUserCart(user)` succeeds whatever the state of the user's cart (items,
empty, no document); a second `ClearUserCart(user)` succeeds too and leaves the store the
first one left; and after one as after two calls `RetrieveUserCart(user)` returns an empty
item list. -/
theorem ClearUserCart_idempotent (env : Env) (s : Store) (userID : String)
    (hupd : env.updateErr = none) (hfind : env.findErr = none) :
    (ClearUserCart env s userID).2 = none ∧
    ClearUserCart env (ClearUserCart env s userID).1 userID =
      ((ClearUserCart env s userID).1, none) ∧
    (∃ cart, RetrieveUserCart env (ClearUserCart env s userID).1 userID = .ok cart ∧
      cart.UserID = userID ∧ cart.Items = []) ∧
    (∃ cart, RetrieveUserCart env
        (ClearUserCart env (ClearUserCart env s userID).1 userID).1 userID = .ok cart ∧
      cart.UserID = userID ∧ cart.Items = []) := by
  have h1 := cartItems_ClearUserCart env s userID hupd
  have hform : ∀ s0 : Store, ClearUserCart env s0 userID =
      (⟨updateFirst (fun c => decide (c.UserID = userID))
        (fun c => { c with Items := [] }) s0.carts, s0.transactions⟩, none) := by
    intro s0
    unfold ClearUserCart UpdateOne
    rw [hupd]
    cases hf : s0.carts.find? (fun c => decide (c.UserID = userID)) with
    | none => simp only []; rw [updateFirst_of_find?_none _ _ _ hf]
    | some d => rfl
  have htwice : ClearUserCart env (ClearUserCart env s userID).1 userID =
      ((ClearUserCart env s userID).1, none) := by
    rw [hform s, hform]
    simp only []
    rw [updateFirst_idem (fun c : Cart => decide (c.UserID = userID))
      (fun c => { c with Items := [] }) (fun d => rfl) (fun d => rfl)]
  have hret : ∃ cart, RetrieveUserCart env (ClearUserCart env s userID).1 userID = .ok cart ∧
      cart.UserID = userID ∧ cart.Items = [] := by
    obtain ⟨cart, c1, c2, c3⟩ :=
      RetrieveUserCart_items env (ClearUserCart env s userID).1 userID hfind
    exact ⟨cart, c1, c2, by rw [c3, h1.2.2]⟩
  refine ⟨h1.1, htwice, hret, ?_⟩
  rw [htwice]
  exact hret

/-- C10 at a concrete input: a cart with one item, cleared twice. -/
theorem ClearUserCart_idempotent_witness :
    okEnv.updateErr = none ∧ okEnv.findErr = none ∧
    (ClearUserCart okEnv pendingStore "u@x.io").1 =
      { pendingStore with carts := [{ UserID := "u@x.io", Items := [], UpdatedAt := zeroTime }] } ∧
    ClearUserCart okEnv (ClearUserCart okEnv pendingStore "u@x.io").1 "u@x.io" =
      ((ClearUserCart okEnv pendingStore "u@x.io").1, none) :=
  ⟨rfl, rfl, by decide, (ClearUserCart_idempotent okEnv pendingStore "u@x.io" rfl rfl).2.1⟩

theorem mem_updateFirst {α : Type} {p : α → Bool} {f : α → α} {docs : List α} {x : α}
    (h : x ∈ updateFirst p f docs) : x ∈ docs ∨ ∃ d ∈ docs, p d = true ∧ x = f d := by
  induction docs with
  | nil => cases h
  | cons d ds ih =>
    unfold updateFirst at h
    by_cases hd : p d = true
    · rw [if_pos hd] at h
      rcases List.mem_cons.1 h with h | h
      · exact Or.inr ⟨d, List.mem_cons_self _ _, hd, h⟩
      · exact Or.inl (List.mem_cons_of_mem _ h)
    · rw [if_neg hd] at h
      rcases List.mem_cons.1 h with h | h
      · exact Or.inl (h ▸ List.mem_cons_self _ _)
      · rcases ih h with h | ⟨e, he, hp, hx⟩
        · exact Or.inl (List.mem_cons_of_mem _ h)
        · exact Or.inr ⟨e, List.mem_cons_of_mem _ he, hp, hx⟩

theorem map_ID_updateFirst (p : Transaction → Bool) (f : Transaction → Transaction)
    (hf : ∀ d, (f d).ID = d.ID) (docs : List Transaction) :
    (updateFirst p f docs).map (fun t => t.ID) = docs.map (fun t => t.ID) := by
  induction docs with
  | nil => rfl
  | cons d ds ih =>
    by_cases hd : p d = true
    · simp [updateFirst, hd, hf]
    · simp [updateFirst, hd, ih]

theorem InsertOne_ok {env : Env} {doc : Transaction} {docs txs : List Transaction}
    (h : InsertOne env doc docs = .ok txs) :
    ∃ id, (∀ t ∈ docs, t.ID ≠ id) ∧
      txs = docs ++ [{ doc with ID := id, CreatedAt := bsonTime doc.CreatedAt }] := by
  unfold InsertOne at h
  cases hi : env.insertErr with
  | some msg => rw [hi] at h; cases h
  | none =>
    rw [hi] at h
    simp only [] at h
    by_cases hany : docs.any (fun t => decide (t.ID = if doc.ID = 0 then env.newID else doc.ID))
        = true
    · rw [if_pos hany] at h
      cases h
    · rw [if_neg hany] at h
      cases h
      refine ⟨_, ?_, rfl⟩
      intro t ht hid
      apply hany
      rw [List.any_eq_true]
      exact ⟨t, ht, by simpa using hid⟩

/-- How one call may change the ledger: not at all, by appending a pending transaction
under a new id, by setting the status of the transaction with a given id to
`"completed"`, or by removing transactions. -/
theorem step_transactions (env : Env) (s : Store) (op : Op) (hwf : s.WF)
    (hst : s.StatusOK) (hop : op.setsCompletedOnly) :
    (step env s op).transactions = s.transactions ∨
    (∃ t, (∀ x ∈ s.transactions, x.ID ≠ t.ID) ∧ t.Status = "pending" ∧
      (step env s op).transactions = s.transactions ++ [t]) ∨
    (∃ id, (∀ x ∈ s.transactions, x.ID = id → x.Status = "pending" ∨ x.Status = "completed") ∧
      (step env s op).transactions = updateFirst (fun x => decide (x.ID = id))
        (fun x => { x with Status := "completed" }) s.transactions) ∨
    (step env s op).transactions.Sublist s.transactions := by
  cases op with
  | AddItemToUserCart userID item =>
    left
    simp only [step]
    unfold AddItemToUserCart
    split <;> rfl
  | ClearUserCart userID =>
    left
    simp only [step]
    unfold ClearUserCart
    split <;> rfl
  | CreateTransactionFromCart userID =>
    simp only [step]
    unfold CreateTransactionFromCart
    cases RetrieveUserCart env s userID with
    | error e => exact Or.inl rfl
    | ok cart =>
      simp only []
      cases hi : InsertOne env _ s.transactions with
      | error e => exact Or.inl rfl
      | ok txs =>
        obtain ⟨id, hfresh, htxs⟩ := InsertOne_ok hi
        right; left
        refine ⟨{ ID := id, UserID := userID, Items := cart.Items,
                  TotalAmount := CalculateTotal cart.Items, Status := "pending",
                  CreatedAt := bsonTime env.now }, hfresh, rfl, ?_⟩
        · simp only []
          have hc : (ClearUserCart env { carts := s.carts, transactions := txs } userID).1.transactions
              = txs := by
            unfold ClearUserCart
            split <;> rfl
          rw [hc, htxs]
  | ProcessPayment r =>
    simp only [step]
    unfold ProcessPayment
    split
    · exact Or.inl rfl
    · split
      · exact Or.inl rfl
      · split
        · exact Or.inl rfl
        · split
          · exact Or.inl rfl
          · rename_i found hfound
            obtain ⟨-, hmem, -, hpend⟩ := RetrievePendingTransaction_ok hfound
            simp only []
            split
            · exact Or.inl rfl
            · rename_i txs res hu
              have htxs := UpdateOne_ok hu
              right; right; left
              refine ⟨found.ID, ?_, ?_⟩
              · intro x hx hid
                rw [eq_of_ID_eq hwf hx hmem hid]
                exact Or.inl hpend
              · split
                · exact htxs
                · split <;> exact htxs
  | UpdateTransactionStatus transactionID status =>
    simp only [Op.setsCompletedOnly] at hop
    subst hop
    simp only [step]
    unfold UpdateTransactionStatus
    split
    · exact Or.inl rfl
    · rename_i txs res hu
      have htxs := UpdateOne_ok hu
      right; right; left
      refine ⟨transactionID, fun x hx _ => hst x hx, ?_⟩
      split <;> exact htxs
  | DeleteLastTransaction r =>
    simp only [step]
    unfold DeleteLastTransaction
    split
    · exact Or.inl rfl
    · split
      · exact Or.inl rfl
      · simp only []
        split
        · exact Or.inl rfl
        · split
          · exact Or.inl rfl
          · rename_i txs hdel
            right; right; right
            unfold DeleteOne at hdel
            split at hdel
            · cases hdel
            · cases hdel
              exact List.eraseP_sublist _

theorem ledger_step_monotone (l l1 : List Transaction)
    (hnd : (l.map (fun t => t.ID)).Nodup)
    (hst : ∀ t ∈ l, t.Status = "pending" ∨ t.Status = "completed")
    (h : l1 = l ∨
      (∃ t, (∀ x ∈ l, x.ID ≠ t.ID) ∧ t.Status = "pending" ∧ l1 = l ++ [t]) ∨
      (∃ id, (∀ x ∈ l, x.ID = id → x.Status = "pending" ∨ x.Status = "completed") ∧
        l1 = updateFirst (fun x => decide (x.ID = id))
          (fun x => { x with Status := "completed" }) l) ∨
      l1.Sublist l) :
    (l1.map (fun t => t.ID)).Nodup ∧
    (∀ t ∈ l, ∀ t1 ∈ l1, t1.ID = t.ID →
      t1 = t ∨ (t.Status = "pending" ∧ t1 = { t with Status := "completed" })) ∧
    (∀ t1 ∈ l1, (∀ t ∈ l, t.ID ≠ t1.ID) → t1.Status = "pending") := by
  rcases h with h | ⟨n, hfresh, hpend, h⟩ | ⟨id, hid, h⟩ | h
  · subst h
    refine ⟨hnd, fun t ht t1 ht1 e => Or.inl (eq_of_ID_eq hnd ht1 ht e), ?_⟩
    intro t1 ht1 hno
    exact absurd rfl (hno t1 ht1)
  · subst h
    refine ⟨?_, ?_, ?_⟩
    · rw [List.map_append, List.nodup_append]
      refine ⟨hnd, by simp, ?_⟩
      intro a ha hb
      simp only [List.map_cons, List.map_nil, List.mem_singleton] at hb
      obtain ⟨x, hx, hxa⟩ := List.mem_map.1 ha
      exact hfresh x hx (by rw [hxa, hb])
    · intro t ht t1 ht1 e
      rcases List.mem_append.1 ht1 with h1 | h1
      · exact Or.inl (eq_of_ID_eq hnd h1 ht e)
      · rw [List.mem_singleton] at h1
        subst h1
        exact absurd e.symm (hfresh t ht)
    · intro t1 ht1 hno
      rcases List.mem_append.1 ht1 with h1 | h1
      · exact absurd rfl (hno t1 h1)
      · rw [List.mem_singleton] at h1
        rw [h1]
        exact hpend
  · subst h
    refine ⟨?_, ?_, ?_⟩
    · rw [map_ID_updateFirst (fun x => decide (x.ID = id))
        (fun x => { x with Status := "completed" }) (fun d => rfl)]
      exact hnd
    · intro t ht t1 ht1 e
      rcases mem_updateFirst ht1 with h1 | ⟨d, hd, hp, h1⟩
      · exact Or.inl (eq_of_ID_eq hnd h1 ht e)
      · have hdt : d = t := by
          apply eq_of_ID_eq hnd hd ht
          rw [← e, h1]
        subst hdt
        have hdid : d.ID = id := by simpa using hp
        rcases hid d hd hdid with hs | hs
        · exact Or.inr ⟨hs, h1⟩
        · left
          rw [h1, ← hs]
    · intro t1 ht1 hno
      rcases mem_updateFirst ht1 with h1 | ⟨d, hd, hp, h1⟩
      · exact absurd rfl (hno t1 h1)
      · exact absurd (by rw [h1]) (hno d hd)
  · refine ⟨(h.map _).nodup hnd, ?_, ?_⟩
    · intro t ht t1 ht1 e
      exact Or.inl (eq_of_ID_eq hnd (h.subset ht1) ht e)
    · intro t1 ht1 hno
      exact absurd rfl (hno t1 (h.subset ht1))

/-- C9 fails as stated: `UpdateTransactionStatus` sets whatever status it is given, so on
a completed transaction it moves the status back to `"pending"`, and it can set a status
outside pending and completed. -/
theorem UpdateTransactionStatus_not_monotone :
    completedStore.WF ∧ completedStore.StatusOK ∧
    completedStore.transactions = [completedTx] ∧ completedTx.Status = "completed" ∧
    (step okEnv completedStore (.UpdateTransactionStatus 8 "pending")).transactions =
      [{ completedTx with Status := "pending" }] ∧
    (step okEnv completedStore (.UpdateTransactionStatus 8 "paid")).transactions =
      [{ completedTx with Status := "paid" }] := by
  decide

/-- C9 amended: on a ledger with unique ids and statuses pending or completed, every
call of `AddItemToUserCart`, `ClearUserCart`, `CreateTransactionFromCart`,
`ProcessPayment`, `DeleteLastTransaction`, and of `UpdateTransactionStatus` with the
status `"completed"`, leaves such a ledger; a transaction present before and after is
unchanged or has moved from `"pending"` to `"completed"` with every other field kept; a
transaction that is new is `"pending"`. -/
theorem step_status_monotone (env : Env) (s : Store) (op : Op) (hwf : s.WF)
    (hst : s.StatusOK) (hop : op.setsCompletedOnly) :
    (step env s op).WF ∧ (step env s op).StatusOK ∧
    (∀ t ∈ s.transactions, ∀ t1 ∈ (step env s op).transactions, t1.ID = t.ID →
      t1 = t ∨ (t.Status = "pending" ∧ t1 = { t with Status := "completed" })) ∧
    (∀ t1 ∈ (step env s op).transactions,
      (∀ t ∈ s.transactions, t.ID ≠ t1.ID) → t1.Status = "pending") := by
  obtain ⟨h1, h2, h3⟩ := ledger_step_monotone s.transactions (step env s op).transactions
    hwf hst (step_transactions env s op hwf hst hop)
  refine ⟨h1, ?_, h2, h3⟩
  intro t1 ht1
  by_cases hex : ∃ t ∈ s.transactions, t.ID = t1.ID
  · obtain ⟨t, ht, e⟩ := hex
    rcases h2 t ht t1 ht1 e.symm with h | ⟨-, h⟩
    · rw [h]
      exact hst t ht
    · rw [h]
      exact Or.inr rfl
  · left
    apply h3 t1 ht1
    intro t ht e
    exact hex ⟨t, ht, e⟩

/-- C9 amended, at a concrete input: paying the pending transaction 7. -/
theorem step_status_monotone_witness :
    pendingStore.WF ∧ pendingStore.StatusOK ∧
    (Op.ProcessPayment payRequest).setsCompletedOnly ∧
    (step okEnv pendingStore (.ProcessPayment payRequest)).transactions =
      [completedTx, { pendingTx with Status := "completed" }] ∧
    (step okEnv pendingStore (.ProcessPayment payRequest)).StatusOK :=
  ⟨by decide, by decide, trivial, by decide,
   (step_status_monotone okEnv pendingStore (.ProcessPayment payRequest)
      (by decide) (by decide) trivial).2.1⟩

/-- C11: for a user with no cart document, `RetrieveUserCart(user)` returns, the driver
call going through, the cart value with `UserID = user`, an empty item list and the zero
time; it is a read, and in no case does it report `mongo.ErrNoDocuments`. -/
theorem RetrieveUserCart_absent (env : Env) (s : Store) (userID : String)
    (hno : ∀ c ∈ s.carts, c.UserID ≠ userID) :
    (env.findErr = none →
      RetrieveUserCart env s userID =
        .ok { UserID := userID, Items := [], UpdatedAt := zeroTime }) ∧
    RetrieveUserCart env s userID ≠ .error .ErrNoDocuments := by
  have hn : s.carts.find? (fun c => decide (c.UserID = userID)) = none := by
    rw [List.find?_eq_none]
    intro c hc
    simpa using hno c hc
  unfold RetrieveUserCart FindOne
  rw [hn]
  cases env.findErr with
  | none => exact ⟨fun _ => rfl, fun h => by cases h⟩
  | some msg => exact ⟨fun h => (by cases h), fun h => (by cases h)⟩

/-- C11 at a concrete input: `w@x.io` has no cart in `pendingStore`. -/
theorem RetrieveUserCart_absent_witness :
    (∀ c ∈ pendingStore.carts, c.UserID ≠ "w@x.io") ∧ okEnv.findErr = none ∧
    RetrieveUserCart okEnv pendingStore "w@x.io" =
      .ok { UserID := "w@x.io", Items := [], UpdatedAt := zeroTime } :=
  ⟨by decide, rfl, (RetrieveUserCart_absent okEnv pendingStore "w@x.io" (by decide)).1 rfl⟩

theorem latest_eq_none {l : List Transaction} (h : latest l = none) : l = [] := by
  cases l with
  | nil => rfl
  | cons t ts =>
    unfold latest at h
    split at h
    · cases h
    · split at h <;> cases h

theorem latest_eq_some {l : List Transaction} {t : Transaction} (h : latest l = some t) :
    t ∈ l ∧ ∀ x ∈ l, x.CreatedAt ≤ t.CreatedAt := by
  induction l generalizing t with
  | nil => cases h
  | cons d ds ih =>
    unfold latest at h
    split at h
    · rename_i hn
      cases h
      rw [latest_eq_none hn]
      refine ⟨List.mem_cons_self _ _, ?_⟩
      intro x hx
      rw [List.mem_singleton] at hx
      rw [hx]
    · rename_i u hu
      obtain ⟨hmem, hmax⟩ := ih hu
      split at h
      · rename_i hlt
        cases h
        refine ⟨List.mem_cons_of_mem _ hmem, ?_⟩
        intro x hx
        rcases List.mem_cons.1 hx with hx | hx
        · rw [hx]
          exact le_of_lt hlt
        · exact hmax x hx
      · rename_i hlt
        cases h
        refine ⟨List.mem_cons_self _ _, ?_⟩
        intro x hx
        rcases List.mem_cons.1 hx with hx | hx
        · rw [hx]
        · exact le_trans (hmax x hx) (not_lt.1 hlt)

theorem eraseP_ID_eq_erase {l : List Transaction} (hnd : (l.map (fun t => t.ID)).Nodup)
    {t : Transaction} (ht : t ∈ l) :
    l.eraseP (fun x => decide (x.ID = t.ID)) = l.erase t := by
  induction l with
  | nil => cases ht
  | cons d ds ih =>
    rw [List.map_cons, List.nodup_cons] at hnd
    by_cases hd : d = t
    · subst hd
      simp
    · have ht2 : t ∈ ds := by
        rcases List.mem_cons.1 ht with h | h
        · exact absurd h.symm hd
        · exact h
      have hid : ¬ d.ID = t.ID := by
        intro h
        exact hnd.1 (List.mem_map.2 ⟨t, ht2, h.symm⟩)
      rw [List.eraseP_cons_of_neg (by simpa using hid), List.erase_cons_tail (by simpa using hd),
        ih hnd.2 ht2]

/-- The two ways `DeleteLastTransaction` can end: a failure answer with the store as it
was, or the answer 200 after deleting by `_id` the user's transaction that the sort on
`created_at` puts first. -/
theorem DeleteLastTransaction_cases (env : Env) (s : Store) (r : Request Unit) :
    ((DeleteLastTransaction env s r).store = s ∧
      (DeleteLastTransaction env s r).response.status ≠ 200) ∨
    ∃ userID t, r.Method = "DELETE" ∧ r.userID = some userID ∧ env.findErr = none ∧
      env.deleteErr = none ∧
      latest (s.transactions.filter (fun x => decide (x.UserID = userID))) = some t ∧
      DeleteLastTransaction env s r =
        ⟨⟨s.carts, s.transactions.eraseP (fun x => decide (x.ID = t.ID))⟩, ⟨200, ""⟩, []⟩ := by
  unfold DeleteLastTransaction
  split
  · exact Or.inl ⟨rfl, by simp [httpError]⟩
  · rename_i hm
    split
    · exact Or.inl ⟨rfl, by simp [httpError]⟩
    · rename_i userID hu
      simp only []
      split
      · exact Or.inl ⟨rfl, by simp [httpError]⟩
      · rename_i lastTransaction hfound
        split
        · exact Or.inl ⟨rfl, by simp [httpError]⟩
        · rename_i txs hdel
          right
          split at hfound
          · cases hfound
          · rename_i hfe
            split at hfound
            · rename_i t hlatest
              cases hfound
              unfold DeleteOne at hdel
              split at hdel
              · cases hdel
              · rename_i hde
                cases hdel
                exact ⟨userID, lastTransaction, not_not.1 hm, hu, hfe, hde, hlatest, rfl⟩
            · cases hfound

theorem DeleteLastTransaction_eval (env : Env) (s : Store) (r : Request Unit)
    (userID : String) (hm : r.Method = "DELETE") (hu : r.userID = some userID)
    (hfind : env.findErr = none) :
    DeleteLastTransaction env s r =
      match latest (s.transactions.filter (fun x => decide (x.UserID = userID))) with
      | none => ⟨s, httpError "Failed to find last transaction" 500, []⟩
      | some t =>
        match env.deleteErr with
        | some _ => ⟨s, httpError "Failed to delete last transaction" 500, []⟩
        | none =>
          ⟨⟨s.carts, s.transactions.eraseP (fun x => decide (x.ID = t.ID))⟩, ⟨200, ""⟩, []⟩ := by
  unfold DeleteLastTransaction DeleteOne
  rw [hu, hfind]
  simp only [hm, ne_eq, not_true_eq_false, if_false]
  cases latest (s.transactions.filter (fun x => decide (x.UserID = userID))) with
  | none => rfl
  | some t =>
    cases env.deleteErr with
    | none => rfl
    | some msg => rfl

/-- C12: for an authenticated user, on a ledger with unique ids, a `DeleteLastTransaction`
that answers 200 has removed exactly one transaction, one of the user whose `createdAt`
is at least that of every transaction of the user, and left every other transaction and
every cart as they were; with the driver calls going through, a DELETE request of a user
who has a transaction does answer 200; and for a user with no transaction the call
fails (500, from `ErrNoDocuments`) and the store is as it was. -/
theorem DeleteLastTransaction_spec (env : Env) (s : Store) (r : Request Unit)
    (userID : String) (hu : r.userID = some userID) (hwf : s.WF) :
    ((DeleteLastTransaction env s r).response.status = 200 →
      ∃ t ∈ s.transactions, t.UserID = userID ∧
        (∀ x ∈ s.transactions, x.UserID = userID → x.CreatedAt ≤ t.CreatedAt) ∧
        (DeleteLastTransaction env s r).store = ⟨s.carts, s.transactions.erase t⟩ ∧
        (DeleteLastTransaction env s r).store.transactions.length + 1 =
          s.transactions.length) ∧
    (r.Method = "DELETE" → env.findErr = none → env.deleteErr = none →
      (∃ t ∈ s.transactions, t.UserID = userID) →
      (DeleteLastTransaction env s r).response.status = 200) ∧
    ((∀ t ∈ s.transactions, t.UserID ≠ userID) →
      (DeleteLastTransaction env s r).store = s ∧
      (DeleteLastTransaction env s r).response.status ≠ 200 ∧
      (r.Method = "DELETE" → env.findErr = none →
        (DeleteLastTransaction env s r).response =
          httpError "Failed to find last transaction" 500)) := by
  refine ⟨?_, ?_, ?_⟩
  · intro hok
    rcases DeleteLastTransaction_cases env s r with ⟨-, hne⟩ | ⟨u, t, -, hu2, -, -, hl, hres⟩
    · exact absurd hok hne
    · rw [hu] at hu2
      cases hu2
      obtain ⟨hmem, hmax⟩ := latest_eq_some hl
      rw [List.mem_filter] at hmem
      have htu : t.UserID = userID := by simpa using hmem.2
      refine ⟨t, hmem.1, htu, ?_, ?_, ?_⟩
      · intro x hx hxu
        exact hmax x (List.mem_filter.2 ⟨hx, by simpa using hxu⟩)
      · rw [hres, eraseP_ID_eq_erase hwf hmem.1]
      · rw [hres, eraseP_ID_eq_erase hwf hmem.1]
        simp only []
        rw [List.length_erase_of_mem hmem.1]
        have hpos : 0 < s.transactions.length := List.length_pos_of_mem hmem.1
        omega
  · intro hm hfind hdel ⟨t, ht, htu⟩
    rw [DeleteLastTransaction_eval env s r userID hm hu hfind, hdel]
    cases hl : latest (s.transactions.filter (fun x => decide (x.UserID = userID))) with
    | none =>
      have hnil := latest_eq_none hl
      have hmem : t ∈ s.transactions.filter (fun x => decide (x.UserID = userID)) :=
        List.mem_filter.2 ⟨ht, by simpa using htu⟩
      rw [hnil] at hmem
      cases hmem
    | some t1 => rfl
  · intro hno
    have hnil : s.transactions.filter (fun x => decide (x.UserID = userID)) = [] := by
      rw [List.filter_eq_nil_iff]
      intro x hx
      simpa using hno x hx
    have hstore : (DeleteLastTransaction env s r).store = s ∧
        (DeleteLastTransaction env s r).response.status ≠ 200 := by
      rcases DeleteLastTransaction_cases env s r with h | ⟨u, t, -, hu2, -, -, hl, -⟩
      · exact h
      · rw [hu] at hu2
        cases hu2
        rw [hnil] at hl
        cases hl
    refine ⟨hstore.1, hstore.2, ?_⟩
    intro hm hfind
    rw [DeleteLastTransaction_eval env s r userID hm hu hfind, hnil]
    rfl

/-- C12 at a concrete input: of the two transactions of `u@x.io`, the later one (id 7)
is deleted; the older one and the transaction of `v@x.io` stay. -/
theorem DeleteLastTransaction_spec_witness :
    deleteRequest.userID = some "u@x.io" ∧ ledgerStore.WF ∧
    DeleteLastTransaction okEnv ledgerStore deleteRequest =
      ⟨⟨[], [olderTx, completedTx]⟩, ⟨200, ""⟩, []⟩ ∧
    ∃ t ∈ ledgerStore.transactions, t.UserID = "u@x.io" ∧
      (∀ x ∈ ledgerStore.transactions, x.UserID = "u@x.io" → x.CreatedAt ≤ t.CreatedAt) ∧
      (DeleteLastTransaction okEnv ledgerStore deleteRequest).store =
        ⟨ledgerStore.carts, ledgerStore.transactions.erase t⟩ ∧
      (DeleteLastTransaction okEnv ledgerStore deleteRequest).store.transactions.length + 1 =
        ledgerStore.transactions.length :=
  ⟨rfl, by decide, by decide,
   (DeleteLastTransaction_spec okEnv ledgerStore deleteRequest "u@x.io" rfl (by decide)).1
     (by decide)⟩

theorem AddItemToUserCart_items (env : Env) (s : Store) (userID : String) (item : CartItem)
    (c1 : Cart) (hc1 : c1 ∈ (AddItemToUserCart env s userID item).1.carts)
    (i : CartItem) (hi : i ∈ c1.Items) : i = item ∨ ∃ c ∈ s.carts, i ∈ c.Items := by
  unfold AddItemToUserCart UpdateOne at hc1
  cases hu : env.updateErr with
  | some msg =>
    rw [hu] at hc1
    exact Or.inr ⟨c1, hc1, hi⟩
  | none =>
    rw [hu] at hc1
    cases hf : s.carts.find? (fun c => decide (c.UserID = userID)) with
    | none =>
      rw [hf] at hc1
      rcases List.mem_append.1 hc1 with h | h
      · exact Or.inr ⟨c1, h, hi⟩
      · rw [List.mem_singleton] at h
        rw [h, List.mem_singleton] at hi
        exact Or.inl hi
    | some d =>
      rw [hf] at hc1
      rcases mem_updateFirst hc1 with h | ⟨c, hc, -, h⟩
      · exact Or.inr ⟨c1, h, hi⟩
      · rw [h] at hi
        rcases List.mem_append.1 hi with h2 | h2
        · exact Or.inr ⟨c, hc, h2⟩
        · rw [List.mem_singleton] at h2
          exact Or.inl h2

/-- C13: a POST to `AddProductToCart` whose decoded item has an empty product id is
answered 400 "Product ID is required" with the store as it was; and whatever the
request, an item found in a cart after the handler is an item with a non-empty product
id or was in a cart before. -/
theorem AddProductToCart_empty_productID (env : Env) (s : Store) (r : Request CartItem)
    (item : CartItem) (hm : r.Method = "POST") (hb : r.Body = .ok item)
    (he : item.ProductID = "") :
    AddProductToCart env s r = ⟨s, httpError "Product ID is required" 400, []⟩ ∧
    ∀ (env1 : Env) (s1 : Store) (r1 : Request CartItem),
      ∀ c1 ∈ (AddProductToCart env1 s1 r1).store.carts, ∀ i ∈ c1.Items,
        i.ProductID ≠ "" ∨ ∃ c ∈ s1.carts, i ∈ c.Items := by
  constructor
  · unfold AddProductToCart
    rw [hb]
    simp only [hm, he, ne_eq, not_true_eq_false, if_false, if_true]
  · intro env1 s1 r1 c1 hc1 i hi
    unfold AddProductToCart at hc1
    split at hc1
    · exact Or.inr ⟨c1, hc1, hi⟩
    · split at hc1
      · exact Or.inr ⟨c1, hc1, hi⟩
      · rename_i item1 hb1
        split at hc1
        · exact Or.inr ⟨c1, hc1, hi⟩
        · rename_i hne
          split at hc1
          · exact Or.inr ⟨c1, hc1, hi⟩
          · rename_i u hu1
            have hadd : ∀ c2 ∈ (AddItemToUserCart env1 s1 u item1).1.carts, ∀ j ∈ c2.Items,
                j = item1 ∨ ∃ c ∈ s1.carts, j ∈ c.Items :=
              fun c2 hc2 j hj => AddItemToUserCart_items env1 s1 u item1 c2 hc2 j hj
            split at hc1
            · rename_i s2 e heq
              rw [heq] at hadd
              rcases hadd c1 hc1 i hi with h | h
              · exact Or.inl (h ▸ hne)
              · exact Or.inr h
            · rename_i s2 heq
              rw [heq] at hadd
              rcases hadd c1 hc1 i hi with h | h
              · exact Or.inl (h ▸ hne)
              · exact Or.inr h

/-- C13 at a concrete input: an item without product id, sent by an authenticated user. -/
theorem AddProductToCart_empty_productID_witness :
    emptyIDRequest.Method = "POST" ∧
    emptyIDRequest.Body = .ok ⟨"", 1, F64.dyadic 5 0⟩ ∧
    AddProductToCart okEnv pendingStore emptyIDRequest =
      ⟨pendingStore, httpError "Product ID is required" 400, []⟩ :=
  ⟨rfl, rfl,
   (AddProductToCart_empty_productID okEnv pendingStore emptyIDRequest
      ⟨"", 1, F64.dyadic 5 0⟩ rfl rfl rfl).1⟩

theorem filter_updateFirst {α : Type} (p q : α → Bool) (f : α → α)
    (hq : ∀ d, p d = true → q d = false ∧ q (f d) = false) (docs : List α) :
    (updateFirst p f docs).filter q = docs.filter q := by
  induction docs with
  | nil => rfl
  | cons d ds ih =>
    by_cases hd : p d = true
    · simp [updateFirst, hd, List.filter, (hq d hd).1, (hq d hd).2]
    · simp [updateFirst, hd, List.filter, ih]

theorem AddItemToUserCart_frame (env : Env) (s : Store) (userID : String) (item : CartItem) :
    (AddItemToUserCart env s userID item).1.transactions = s.transactions ∧
    (AddItemToUserCart env s userID item).1.carts.filter (fun c => decide (c.UserID ≠ userID))
      = s.carts.filter (fun c => decide (c.UserID ≠ userID)) := by
  unfold AddItemToUserCart UpdateOne
  cases env.updateErr with
  | some msg => exact ⟨rfl, rfl⟩
  | none =>
    cases s.carts.find? (fun c => decide (c.UserID = userID)) with
    | none =>
      refine ⟨rfl, ?_⟩
      simp [List.filter_append, List.filter]
    | some d =>
      refine ⟨rfl, ?_⟩
      exact filter_updateFirst (fun c : Cart => decide (c.UserID = userID))
        (fun c => decide (c.UserID ≠ userID)) (fun c => { c with Items := c.Items ++ [item] })
        (fun d hd => by simpa using hd) s.carts

theorem ClearUserCart_frame (env : Env) (s : Store) (userID : String) :
    (ClearUserCart env s userID).1.transactions = s.transactions ∧
    (ClearUserCart env s userID).1.carts.filter (fun c => decide (c.UserID ≠ userID))
      = s.carts.filter (fun c => decide (c.UserID ≠ userID)) := by
  unfold ClearUserCart UpdateOne
  cases env.updateErr with
  | some msg => exact ⟨rfl, rfl⟩
  | none =>
    cases s.carts.find? (fun c => decide (c.UserID = userID)) with
    | none => exact ⟨rfl, rfl⟩
    | some d =>
      refine ⟨rfl, ?_⟩
      exact filter_updateFirst (fun c : Cart => decide (c.UserID = userID))
        (fun c => decide (c.UserID ≠ userID)) (fun c => { c with Items := [] })
        (fun d hd => by simpa using hd) s.carts

theorem RetrieveUserCart_congr (env : Env) (s s1 : Store) (userID other : String)
    (hne : other ≠ userID)
    (h : s1.carts.filter (fun c => decide (c.UserID ≠ userID))
      = s.carts.filter (fun c => decide (c.UserID ≠ userID))) :
    RetrieveUserCart env s1 other = RetrieveUserCart env s other := by
  have hfind : ∀ l : List Cart, l.find? (fun c => decide (c.UserID = other)) =
      (l.filter (fun c => decide (c.UserID ≠ userID))).find?
        (fun c => decide (c.UserID = other)) := by
    intro l
    induction l with
    | nil => rfl
    | cons d ds ih =>
      by_cases hd : d.UserID = other
      · have hdu : d.UserID ≠ userID := by rw [hd]; exact hne
        rw [List.filter_cons_of_pos (by simpa using hdu),
          List.find?_cons_of_pos _ (by simpa using hd),
          List.find?_cons_of_pos _ (by simpa using hd)]
      · by_cases hdu : d.UserID = userID
        · rw [List.filter_cons_of_neg (by simpa using hdu),
            List.find?_cons_of_neg _ (by simpa using hd), ih]
        · rw [List.filter_cons_of_pos (by simpa using hdu),
            List.find?_cons_of_neg _ (by simpa using hd),
            List.find?_cons_of_neg _ (by simpa using hd), ih]
  unfold RetrieveUserCart FindOne
  rw [hfind s1.carts, hfind s.carts, h]

/-- C14: `AddItemToUserCart(user, item)` and `ClearUserCart(user)` leave the ledger as it
was (every transaction with all its fields) and leave the cart documents of every other
user as they were, so that `RetrieveUserCart` of another user returns what it returned
before; in particular the ledger `CreateTransactionFromCart` left is the same after the
cart is mutated. -/
theorem cart_mutation_frame (env : Env) (s : Store) (userID : String) (item : CartItem) :
    (AddItemToUserCart env s userID item).1.transactions = s.transactions ∧
    (ClearUserCart env s userID).1.transactions = s.transactions ∧
    (AddItemToUserCart env s userID item).1.carts.filter (fun c => decide (c.UserID ≠ userID))
      = s.carts.filter (fun c => decide (c.UserID ≠ userID)) ∧
    (ClearUserCart env s userID).1.carts.filter (fun c => decide (c.UserID ≠ userID))
      = s.carts.filter (fun c => decide (c.UserID ≠ userID)) ∧
    (∀ (env1 : Env) (other : String), other ≠ userID →
      RetrieveUserCart env1 (AddItemToUserCart env s userID item).1 other
        = RetrieveUserCart env1 s other ∧
      RetrieveUserCart env1 (ClearUserCart env s userID).1 other
        = RetrieveUserCart env1 s other) ∧
    (∀ (env0 : Env) (s0 : Store) (u0 : String),
      (AddItemToUserCart env (CreateTransactionFromCart env0 s0 u0).1 userID item).1.transactions
        = (CreateTransactionFromCart env0 s0 u0).1.transactions ∧
      (ClearUserCart env (CreateTransactionFromCart env0 s0 u0).1 userID).1.transactions
        = (CreateTransactionFromCart env0 s0 u0).1.transactions) := by
  have ha := AddItemToUserCart_frame env s userID item
  have hc := ClearUserCart_frame env s userID
  refine ⟨ha.1, hc.1, ha.2, hc.2, ?_, ?_⟩
  · intro env1 other hne
    exact ⟨RetrieveUserCart_congr env1 s _ userID other hne ha.2,
      RetrieveUserCart_congr env1 s _ userID other hne hc.2⟩
  · intro env0 s0 u0
    exact ⟨(AddItemToUserCart_frame env _ userID item).1, (ClearUserCart_frame env _ userID).1⟩

set_option maxRecDepth 100000 in
/-- C14 at a concrete input: after the checkout of the cart (A, 2, 5.0), adding an item
to the cart leaves the created transaction with its one item. -/
theorem cart_mutation_frame_witness :
    (CreateTransactionFromCart okEnv cartStore "u@x.io").1.transactions =
      [{ ID := 1, UserID := "u@x.io", Items := [⟨"A", 2, F64.dyadic 5 0⟩],
         TotalAmount := F64.dyadic 10 0, Status := "pending",
         CreatedAt := 1700000000123000000 }] ∧
    (AddItemToUserCart okEnv (CreateTransactionFromCart okEnv cartStore "u@x.io").1
        "u@x.io" ⟨"B", 1, F64.dyadic 3 1⟩).1.carts =
      [{ UserID := "u@x.io", Items := [⟨"B", 1, F64.dyadic 3 1⟩], UpdatedAt := zeroTime }] ∧
    (AddItemToUserCart okEnv (CreateTransactionFromCart okEnv cartStore "u@x.io").1
        "u@x.io" ⟨"B", 1, F64.dyadic 3 1⟩).1.transactions =
      (CreateTransactionFromCart okEnv cartStore "u@x.io").1.transactions :=
  ⟨by decide, by decide,
   ((cart_mutation_frame okEnv cartStore "u@x.io" ⟨"B", 1, F64.dyadic 3 1⟩).2.2.2.2.2
      okEnv cartStore "u@x.io").1⟩

/-- C15: for a user with a pending transaction, on a ledger with unique ids, when the
status update of `ProcessPayment` succeeds and then `GenerateReceiptPDF` or
`SendReceiptEmail` fails, the answer is the one failure 500 and the store holds that
transaction with status `"completed"`, everything else as before: nothing sets it back
to `"pending"`. -/
theorem ProcessPayment_receipt_failure (env : Env) (s : Store) (r : Request PaymentForm)
    (payment : PaymentForm) (userID : String) (t : Transaction)
    (hwf : s.WF) (hm : r.Method = "POST") (hb : r.Body = .ok payment)
    (hu : r.userID = some userID)
    (hpend : RetrievePendingTransaction env s userID = .ok t)
    (hupd : env.updateErr = none)
    (hfail : (∃ e, env.renderPDF { t with Status := "completed" } payment.Name = .error e) ∨
      (∃ pdf e, env.renderPDF { t with Status := "completed" } payment.Name = .ok pdf ∧
        env.sendMail userID "Your Receipt" "Thank you for your purchase!" pdf = some e)) :
    (ProcessPayment env s r).response.status = 500 ∧
    (ProcessPayment env s r).store.transactions =
      s.transactions.map (fun x => if x = t then { t with Status := "completed" } else x) ∧
    ({ t with Status := "completed" } : Transaction) ∈
      (ProcessPayment env s r).store.transactions ∧
    (∀ x ∈ (ProcessPayment env s r).store.transactions, x.ID = t.ID →
      x.Status = "completed") ∧
    (ProcessPayment env s r).store.carts = s.carts := by
  obtain ⟨-, hmem, -, -⟩ := RetrievePendingTransaction_ok hpend
  have hfind : s.transactions.find? (fun x => decide (x.ID = t.ID)) ≠ none := by
    intro hn
    rw [List.find?_eq_none] at hn
    simpa using hn t hmem
  have hres : (ProcessPayment env s r).response.status = 500 ∧
      (ProcessPayment env s r).store =
        ⟨s.carts, updateFirst (fun x => decide (x.ID = t.ID))
          (fun x => { x with Status := "completed" }) s.transactions⟩ := by
    unfold ProcessPayment
    rw [hb, hu]
    simp only [hm, ne_eq, not_true_eq_false, if_false]
    rw [hpend]
    simp only []
    unfold UpdateOne
    rw [hupd]
    cases hf : s.transactions.find? (fun x => decide (x.ID = t.ID)) with
    | none => exact absurd hf hfind
    | some d =>
      simp only []
      rcases hfail with ⟨e, he⟩ | ⟨pdf, e, hp, he⟩
      · rw [he]
        exact ⟨rfl, rfl⟩
      · rw [hp]
        simp only []
        rw [he]
        exact ⟨rfl, rfl⟩
  have hmap := updateFirst_eq_map hwf (fun x => { x with Status := "completed" }) hmem
  have htx : (ProcessPayment env s r).store.transactions =
      s.transactions.map (fun x => if x = t then { t with Status := "completed" } else x) := by
    rw [hres.2]
    exact hmap
  refine ⟨hres.1, htx, ?_, ?_, ?_⟩
  · rw [htx, List.mem_map]
    exact ⟨t, hmem, by simp⟩
  · intro x hx hid
    rw [htx, List.mem_map] at hx
    obtain ⟨y, hy, hxy⟩ := hx
    by_cases hyt : y = t
    · rw [if_pos hyt] at hxy
      rw [← hxy]
    · rw [if_neg hyt] at hxy
      subst hxy
      exact absurd (eq_of_ID_eq hwf hy hmem hid) hyt
  · rw [hres.2]

/-- C15 at a concrete input: the mail dispatch fails after transaction 7 was set to
completed. -/
theorem ProcessPayment_receipt_failure_witness :
    pendingStore.WF ∧
    RetrievePendingTransaction mailFailsEnv pendingStore "u@x.io" = .ok pendingTx ∧
    mailFailsEnv.sendMail "u@x.io" "Your Receipt" "Thank you for your purchase!"
      [37, 80, 68, 70] = some "dial tcp: i/o timeout" ∧
    (ProcessPayment mailFailsEnv pendingStore payRequest).response =
      httpError "Failed to send receipt email" 500 ∧
    (ProcessPayment mailFailsEnv pendingStore payRequest).store.transactions =
      [completedTx, { pendingTx with Status := "completed" }] ∧
    (ProcessPayment pdfFailsEnv pendingStore payRequest).response =
      httpError "Failed to generate receipt" 500 ∧
    (ProcessPayment pdfFailsEnv pendingStore payRequest).store.transactions =
      [completedTx, { pendingTx with Status := "completed" }] :=
  have h := ProcessPayment_receipt_failure mailFailsEnv pendingStore payRequest
    { CardNumber := "4111111111111111", ExpirationDate := "12/30", CVV := "123",
      Name := "U", Address := "1 Main St" } "u@x.io" pendingTx
    (by decide) rfl rfl rfl (by decide) rfl
    (Or.inr ⟨[37, 80, 68, 70], "dial tcp: i/o timeout", rfl, rfl⟩)
  ⟨by decide, by decide, rfl, by decide, by rw [h.2.1]; decide, by decide, by decide⟩

theorem CreateTransactionFromCart_ledger (env : Env) (s : Store) (userID : String)
    (hfind : env.findErr = none) (hins : env.insertErr = none)
    (hfresh : ∀ t ∈ s.transactions, t.ID ≠ env.newID) :
    ∃ cart, RetrieveUserCart env s userID = .ok cart ∧
      (CreateTransactionFromCart env s userID).2 =
        .ok { ID := 0, UserID := userID, Items := cart.Items,
              TotalAmount := CalculateTotal cart.Items, Status := "pending",
              CreatedAt := env.now } ∧
      (CreateTransactionFromCart env s userID).1.transactions =
        s.transactions ++ [{ ID := env.newID, UserID := userID, Items := cart.Items,
                             TotalAmount := CalculateTotal cart.Items, Status := "pending",
                             CreatedAt := bsonTime env.now }] := by
  obtain ⟨cart, hc, -, -⟩ := RetrieveUserCart_items env s userID hfind
  have hi := InsertOne_fresh env
    { ID := 0, UserID := userID, Items := cart.Items, TotalAmount := CalculateTotal cart.Items,
      Status := "pending", CreatedAt := env.now } s.transactions hins rfl hfresh
  refine ⟨cart, hc, ?_, ?_⟩
  · unfold CreateTransactionFromCart
    rw [hc]
    simp only []
    rw [hi]
  · unfold CreateTransactionFromCart
    rw [hc]
    simp only []
    rw [hi]
    simp only []
    rw [(ClearUserCart_frame env _ userID).1]

set_option maxRecDepth 100000 in
/-- C16: at most one pending transaction per user is not enforced. Two successful
`CreateTransactionFromCart` calls of `u@x.io` in a row leave two transactions of that
user, ids 1 and 2, both `"pending"`; and in general a call whose find and insert go
through succeeds on a ledger that already holds a pending transaction of the user,
keeps it, and adds another pending one under a different id. -/
theorem pending_not_unique :
    ((CreateTransactionFromCart okEnv cartStore "u@x.io").2 =
        .ok { ID := 0, UserID := "u@x.io", Items := [⟨"A", 2, F64.dyadic 5 0⟩],
              TotalAmount := F64.dyadic 10 0, Status := "pending",
              CreatedAt := 1700000000123456789 } ∧
      (CreateTransactionFromCart laterEnv
          (CreateTransactionFromCart okEnv cartStore "u@x.io").1 "u@x.io").2 =
        .ok { ID := 0, UserID := "u@x.io", Items := [], TotalAmount := F64.zero,
              Status := "pending", CreatedAt := 1700000060000000000 } ∧
      (CreateTransactionFromCart laterEnv
          (CreateTransactionFromCart okEnv cartStore "u@x.io").1 "u@x.io").1.transactions =
        [{ ID := 1, UserID := "u@x.io", Items := [⟨"A", 2, F64.dyadic 5 0⟩],
           TotalAmount := F64.dyadic 10 0, Status := "pending",
           CreatedAt := 1700000000123000000 },
         { ID := 2, UserID := "u@x.io", Items := [], TotalAmount := F64.zero,
           Status := "pending", CreatedAt := 1700000060000000000 }]) ∧
    (∀ (env : Env) (s : Store) (userID : String) (t0 : Transaction),
      env.findErr = none → env.insertErr = none →
      (∀ t ∈ s.transactions, t.ID ≠ env.newID) →
      t0 ∈ s.transactions → t0.UserID = userID → t0.Status = "pending" →
      (∃ tx, (CreateTransactionFromCart env s userID).2 = .ok tx) ∧
      t0 ∈ (CreateTransactionFromCart env s userID).1.transactions ∧
      ∃ t1 ∈ (CreateTransactionFromCart env s userID).1.transactions,
        t1.ID ≠ t0.ID ∧ t1.UserID = userID ∧ t1.Status = "pending") := by
  refine ⟨by decide, ?_⟩
  intro env s userID t0 hfind hins hfresh h0 _ _
  obtain ⟨cart, -, hok, htx⟩ := CreateTransactionFromCart_ledger env s userID hfind hins hfresh
  refine ⟨⟨_, hok⟩, ?_, ?_⟩
  · rw [htx]
    exact List.mem_append_left _ h0
  · rw [htx]
    refine ⟨_, List.mem_append_right _ (List.mem_singleton.2 rfl), ?_, rfl, rfl⟩
    exact fun h => hfresh t0 h0 h.symm

set_option maxRecDepth 100000 in
/-- C16 at a concrete input: a second checkout on the ledger a first checkout left. -/
theorem pending_not_unique_witness :
    laterEnv.findErr = none ∧ laterEnv.insertErr = none ∧
    (∃ tx, (CreateTransactionFromCart laterEnv
        (CreateTransactionFromCart okEnv cartStore "u@x.io").1 "u@x.io").2 = .ok tx) ∧
    ∃ t1 ∈ (CreateTransactionFromCart laterEnv
        (CreateTransactionFromCart okEnv cartStore "u@x.io").1 "u@x.io").1.transactions,
      t1.ID ≠ 1 ∧ t1.UserID = "u@x.io" ∧ t1.Status = "pending" :=
  have h := pending_not_unique.2 laterEnv
    (CreateTransactionFromCart okEnv cartStore "u@x.io").1 "u@x.io"
    { ID := 1, UserID := "u@x.io", Items := [⟨"A", 2, F64.dyadic 5 0⟩],
      TotalAmount := F64.dyadic 10 0, Status := "pending", CreatedAt := 1700000000123000000 }
    rfl rfl (by decide) (by decide) rfl rfl
  ⟨rfl, rfl, h.1, h.2.2⟩

end MicroService
